import Mathlib

/-! # arcore: session lifecycle and frame loop of the WebXR application

A shallow embedding of `src/index.js` (the startup capability probe, the class
`App` with `activateXR`, `createXRCanvas`, `onSessionStarted`, `setupThreeJS`
and `onXRFrame`) and of `src/shared/utils.js` (`Utility.createCubeScene`,
`onNoXRDevice`).

The program is stateful and talks to collaborators that live outside the
repository (the WebXR platform, the DOM, three.js).  Every function of the
source becomes a computation `Js α` over an explicit `World`: the fields of the
`App` instance, the class list of `document.body`, the listeners and frame
callbacks registered so far, and the chronological list of calls the program
made to its collaborators.  What a collaborator answers is a parameter (`Env`,
`Navigator`, `Document`, `XRFrame`), never fixed by the model.

JavaScript exceptions are explicit: a computation returns `Except JsError α`
together with the world reached when it stopped, so that effects performed
before a `throw` are kept, as they are in JavaScript.

An `await` is the point where the answer of the platform (`Env`) comes in, a
rejected promise is an exception at that point. `activateXR` is given twice:
as the run from its first line to its last, in which the platform answers each
request before it delivers anything else (`activateXR`, `dispatch`), and in
the pieces between its `await`s, where any event may be delivered while a run
is suspended (`activateXR_request`, `activateXR_sessionSettled`,
`activateXR_spaceSettled`, `deliver`). `deliver_uninterrupted` shows that the
pieces run back to back are the first.
-/

namespace Arcore

/-! ## Values exchanged with the platform and with three.js -/

/-- Numbers stored in matrices and geometry. The program only moves them
from one place to another, it performs no arithmetic on them. -/
abbrev Num := ℚ

/-- A 16-element numeric array: the `Float32Array` of an `XRRigidTransform` or
of a projection matrix, and the `elements` of a `THREE.Matrix4`. -/
abbrev Mat4 := Fin 16 → Num

/-- An exception value of the JavaScript run time. -/
inductive JsError where
  | typeError (message : String)
  | domException (name : String)
  deriving DecidableEq, Repr

/-- `XRViewport`. -/
structure XRViewport where
  x : Int
  y : Int
  width : Int
  height : Int
  deriving DecidableEq, Repr

/-- `XRRigidTransform`; only its `matrix` is read. -/
structure XRRigidTransform where
  matrix : Mat4

/-- `XRView`. -/
structure XRView where
  transform : XRRigidTransform
  projectionMatrix : Mat4

/-- `XRViewerPose`; `views` is the array indexed by `pose.views[0]`. -/
structure XRViewerPose where
  views : List XRView

/-- `XRReferenceSpace`, as granted by `requestReferenceSpace(kind)` on a
session. -/
structure XRReferenceSpace where
  kind : String
  session : Nat
  deriving DecidableEq, Repr

/-- `XRFrame`: the token handed to the frame callback. `getViewerPose`
answers a pose or nothing (`null`). -/
structure XRFrame where
  getViewerPose : XRReferenceSpace → Option XRViewerPose

/-- `XRWebGLLayer`: the render target of a session. -/
structure XRWebGLLayer where
  session : Nat
  context : Nat
  framebuffer : Nat
  getViewport : XRView → XRViewport

/-- `XRRenderState`; `baseLayer` is `null` until `updateRenderState` sets it. -/
structure XRRenderState where
  baseLayer : Option XRWebGLLayer

/-- `XRSession`, identified by the handle the platform gave it. -/
structure XRSession where
  handle : Nat
  renderState : XRRenderState

/-- `THREE.MeshBasicMaterial({ color })`. -/
structure MeshBasicMaterial where
  color : Nat
  deriving DecidableEq, Repr

/-- `THREE.BoxBufferGeometry(width, height, depth)`. -/
structure BoxBufferGeometry where
  width : Num
  height : Num
  depth : Num
  deriving DecidableEq

/-- `THREE.Mesh(geometry, materials)` with its `position`. -/
structure Mesh where
  geometry : BoxBufferGeometry
  materials : List MeshBasicMaterial
  position : Num × Num × Num
  deriving DecidableEq

/-- `THREE.Scene`: the list of objects added to it. -/
structure Scene where
  children : List Mesh
  deriving DecidableEq

/-- `THREE.PerspectiveCamera`. `composed` stands for the matrix that
`updateMatrix()` would compose from `position`, `quaternion` and `scale`,
fields the program never touches. -/
structure PerspectiveCamera where
  matrix : Mat4
  projectionMatrix : Mat4
  matrixWorld : Mat4
  matrixAutoUpdate : Bool
  composed : Mat4

/-- `THREE.WebGLRenderer`. `methods` are the names of the functions the
object carries: calling any other name on it is a `TypeError`. -/
structure WebGLRenderer where
  methods : List String
  canvas : Option Nat
  context : Option Nat
  alpha : Bool
  preserveDrawingBuffer : Bool
  autoClear : Bool
  width : Int
  height : Int

/-! ## The application object and the world around it -/

/-- The instance fields of `class App`; `none` is JavaScript's `undefined`
(for `gl` also the `null` that `getContext` may return). -/
structure App where
  xrSession : Option XRSession
  canvas : Option Nat
  gl : Option Nat
  renderer : Option WebGLRenderer
  scene : Option Scene
  camera : Option PerspectiveCamera
  localReferenceSpace : Option XRReferenceSpace

/-- A call the program makes to a collaborator, with the arguments it passes;
`enter` marks the entry into a function of the source. -/
inductive Call where
  | enter (fn : String)
  | isSessionSupported (mode : String)
  | getElementById (id : String)
  | addEventListener (id : String) (type : String) (listener : String)
  | classListAdd (cls : String)
  | requestSession (mode : String)
  | createElement (tag : String)
  | appendChild (canvas : Nat)
  | getContext (canvas : Nat) (contextId : String) (xrCompatible : Bool)
  | newXRWebGLLayer (session : Nat) (gl : Option Nat)
  | updateRenderState (session : Nat) (baseLayer : XRWebGLLayer)
  | newWebGLRenderer (canvas : Option Nat) (context : Option Nat)
  | createCubeScene
  | newPerspectiveCamera
  | requestReferenceSpace (session : Nat) (kind : String)
  | requestAnimationFrame (session : Nat) (callback : String)
  | bindFramebuffer (gl : Nat) (framebuffer : Nat)
  | rendererMethod (name : String) (framebuffer : Nat)
  | getViewerPose (space : XRReferenceSpace)
  | getViewport (session : Nat)
  | setSize (width : Int) (height : Int)
  | matrixFromArray (array : Mat4)
  | projectionMatrixFromArray (array : Mat4)
  | updateMatrixWorld (force : Bool)
  | render (scene : Option Scene) (camera : PerspectiveCamera)

/-- Everything the program can read or change. `trace` is chronological:
the latest call is last. `listeners` holds the DOM listeners attached so far
as (element id, event type, listener); `scheduled` holds, per registration,
the session on which a one-shot frame callback is pending. -/
structure World where
  app : App
  bodyClasses : List String
  listeners : List (String × String × String)
  scheduled : List Nat
  nextHandle : Nat
  trace : List Call

/-- What the collaborators answer during one run of `activateXR`. -/
structure Env where
  /-- The rejection of `navigator.xr.requestSession(mode)`, `none` when the
  promise resolves with a session. -/
  sessionRejection : String → Option JsError
  /-- Whether `canvas.getContext` creates a context (`false`: it returns `null`). -/
  contextCreated : Bool
  /-- The framebuffer of a layer built for the given session. -/
  framebuffer : Nat → Nat
  /-- The viewport the layer reports for a view. -/
  getViewport : XRView → XRViewport
  /-- The exception of `updateRenderState`, `none` when it succeeds. -/
  renderStateRejection : Option JsError
  /-- The rejection of `requestReferenceSpace(kind)`, `none` when it resolves. -/
  referenceSpaceRejection : String → Option JsError
  /-- The function names carried by a `THREE.WebGLRenderer` object. -/
  rendererMethods : List String
  /-- The camera `new THREE.PerspectiveCamera()` builds. -/
  newCamera : PerspectiveCamera

/-! ## Computations with state and exceptions -/

/-- A JavaScript computation: from a world to a result or an exception, and
the world reached. -/
def Js (α : Type) : Type := World → Except JsError α × World

/-- Run a computation from a world. -/
def Js.run {α : Type} (m : Js α) (w : World) : Except JsError α × World := m w

/-- Sequencing: an exception stops the computation, the world reached so far
is kept. -/
def Js.bind {α β : Type} (m : Js α) (f : α → Js β) : Js β := fun w =>
  match m w with
  | (Except.ok a, w1) => f a w1
  | (Except.error e, w1) => (Except.error e, w1)

instance : Monad Js where
  pure a := fun w => (Except.ok a, w)
  bind := Js.bind

/-- The `throw` statement. -/
def raise {α : Type} (e : JsError) : Js α := fun w => (Except.error e, w)

/-- The `try` / `catch` statement. -/
def tryCatchJs {α : Type} (body : Js α) (handler : JsError → Js α) : Js α := fun w =>
  match body w with
  | (Except.ok a, w1) => (Except.ok a, w1)
  | (Except.error e, w1) => handler e w1

/-- How a computation goes on after its first step. -/
def resume {α β : Type} (r : Except JsError α × World) (f : α → Js β) :
    Except JsError β × World :=
  match r with
  | (Except.ok a, w1) => (f a).run w1
  | (Except.error e, w1) => (Except.error e, w1)

/-- Read the `App` instance (`this`). -/
def getApp : Js App := fun w => (Except.ok w.app, w)

/-- Assign fields of the `App` instance. -/
def modifyApp (f : App → App) : Js Unit := fun w => (Except.ok (), { w with app := f w.app })

/-- Record a call to a collaborator. -/
def emit (c : Call) : Js Unit := fun w => (Except.ok (), { w with trace := w.trace ++ [c] })

/-- Member access on a value that may be `undefined` or `null`. -/
def deref {α : Type} (what : String) : Option α → Js α
  | some a => pure a
  | none => raise (JsError.typeError (what ++ " is undefined"))

/-- Await a promise or run a call that may throw: `none` is success. -/
def settle : Option JsError → Js Unit
  | none => pure ()
  | some e => raise e

/-- A fresh object identity (a session or a canvas element). -/
def fresh : Js Nat := fun w => (Except.ok w.nextHandle, { w with nextHandle := w.nextHandle + 1 })

/-- `DOMTokenList.add(cls)`: a class list is a set, adding a class that is
present changes nothing. -/
def tokenListAdd (cls : String) (classes : List String) : List String :=
  if cls ∈ classes then classes else classes ++ [cls]

/-- `document.body.classList.add(cls)`. -/
def bodyClassListAdd (cls : String) : Js Unit := fun w =>
  (Except.ok (), { w with bodyClasses := tokenListAdd cls w.bodyClasses,
                          trace := w.trace ++ [Call.classListAdd cls] })

/-! ## Collaborators: the WebXR platform, the DOM and three.js -/

/-- `navigator.xr.requestSession(mode)`, awaited. -/
def requestSession (env : Env) (mode : String) : Js XRSession := do
  emit (Call.requestSession mode)
  settle (env.sessionRejection mode)
  let handle ← fresh
  pure { handle := handle, renderState := { baseLayer := none } }

/-- `document.createElement(tag)`. -/
def createElement (tag : String) : Js Nat := do
  emit (Call.createElement tag)
  fresh

/-- `canvas.getContext(contextId, {xrCompatible})`: a context, or `null`. -/
def getContext (env : Env) (canvas : Nat) (contextId : String) (xrCompatible : Bool) :
    Js (Option Nat) := do
  emit (Call.getContext canvas contextId xrCompatible)
  if env.contextCreated then
    let gl ← fresh
    pure (some gl)
  else
    pure none

/-- `new XRWebGLLayer(session, gl)`: a `TypeError` when `gl` is no context. -/
def newXRWebGLLayer (env : Env) (session : XRSession) (gl : Option Nat) : Js XRWebGLLayer := do
  emit (Call.newXRWebGLLayer session.handle gl)
  let context ← deref "XRWebGLLayer context" gl
  pure { session := session.handle, context := context,
         framebuffer := env.framebuffer session.handle, getViewport := env.getViewport }

/-- `session.updateRenderState({baseLayer})` on the session held in
`this.xrSession`. -/
def updateRenderState (env : Env) (session : XRSession) (baseLayer : XRWebGLLayer) : Js Unit := do
  emit (Call.updateRenderState session.handle baseLayer)
  settle env.renderStateRejection
  modifyApp fun a =>
    { a with xrSession := some { session with renderState := { baseLayer := some baseLayer } } }

/-- `session.requestReferenceSpace(kind)`, awaited. -/
def requestReferenceSpace (env : Env) (session : XRSession) (kind : String) :
    Js XRReferenceSpace := do
  emit (Call.requestReferenceSpace session.handle kind)
  settle (env.referenceSpaceRejection kind)
  pure { kind := kind, session := session.handle }

/-- `session.requestAnimationFrame(callback)`: registers a one-shot callback. -/
def requestAnimationFrame (session : XRSession) (callback : String) : Js Unit := fun w =>
  (Except.ok (), { w with scheduled := w.scheduled ++ [session.handle],
                          trace := w.trace ++ [Call.requestAnimationFrame session.handle callback] })

/-- Looking up `renderer[name]` in order to call it: a `TypeError` when the
object carries no function of that name. Names are case sensitive. -/
def rendererFunction (renderer : WebGLRenderer) (name : String) : Js Unit :=
  if name ∈ renderer.methods then pure ()
  else raise (JsError.typeError ("this.renderer." ++ name ++ " is not a function"))

/-- `THREE.Matrix4.fromArray(array)`: the 16 elements are overwritten by the
16 entries of the array. -/
def Matrix4.fromArray (_elements : Mat4) (array : Mat4) : Mat4 := fun i => array i

/-- `camera.updateMatrixWorld(force)` for an object without parent: the local
matrix is recomposed first when `matrixAutoUpdate` is set, then the world
matrix is copied from the local matrix when forced. The inverse of the world
matrix, which the camera also refreshes, is not part of the model. -/
def PerspectiveCamera.updateMatrixWorld (c : PerspectiveCamera) (force : Bool) :
    PerspectiveCamera :=
  let c1 := if c.matrixAutoUpdate then { c with matrix := c.composed } else c
  if force then { c1 with matrixWorld := c1.matrix } else c1

/-- Mutate the object held in `this.camera`. -/
def updateCamera (f : PerspectiveCamera → PerspectiveCamera) : Js Unit := do
  let self ← getApp
  let camera ← deref "this.camera" self.camera
  modifyApp fun a => { a with camera := some (f camera) }

/-- Mutate the object held in `this.renderer`. -/
def updateRenderer (f : WebGLRenderer → WebGLRenderer) : Js Unit := do
  let self ← getApp
  let renderer ← deref "this.renderer" self.renderer
  modifyApp fun a => { a with renderer := some (f renderer) }

/-! ## `src/shared/utils.js` -/

/-- `Utility.createCubeScene()`: one box of side 0.2 at (1, 1, 1) with six
coloured materials. -/
def createCubeScene : Scene :=
  { children :=
      [{ geometry := { width := 2 / 10, height := 2 / 10, depth := 2 / 10 },
         materials := [⟨0xff0000⟩, ⟨0x0000ff⟩, ⟨0x00ff00⟩, ⟨0xff00ff⟩, ⟨0x00ffff⟩, ⟨0xffff00⟩],
         position := (1, 1, 1) }] }

/-- `onNoXRDevice()`: the fallback presentation. -/
def onNoXRDevice : Js Unit := do
  emit (Call.enter "onNoXRDevice")
  bodyClassListAdd "unsupported"

/-! ## `src/index.js`: class `App` -/

/-- `App.createXRCanvas()`. -/
def createXRCanvas (env : Env) : Js Unit := do
  emit (Call.enter "createXRCanvas")
  -- this.canvas = document.createElement("canvas");
  let canvas ← createElement "canvas"
  modifyApp fun a => { a with canvas := some canvas }
  -- document.body.appendChild(this.canvas);
  emit (Call.appendChild canvas)
  -- this.gl = this.canvas.getContext("webgl", {xrCompatible: true});
  let gl ← getContext env canvas "webgl" true
  modifyApp fun a => { a with gl := gl }
  -- this.xrSession.updateRenderState({ baseLayer: new XRWebGLLayer(this.xrSession, this.gl) });
  let self ← getApp
  let session ← deref "this.xrSession" self.xrSession
  let baseLayer ← newXRWebGLLayer env session self.gl
  updateRenderState env session baseLayer

/-- `App.setupThreeJS()`. -/
def setupThreeJS (env : Env) : Js Unit := do
  emit (Call.enter "setupThreeJS")
  -- this.renderer = new THREE.WebGLRenderer({alpha, preserveDrawingBuffer, canvas, context});
  let self ← getApp
  emit (Call.newWebGLRenderer self.canvas self.gl)
  modifyApp fun a =>
    { a with renderer := some { methods := env.rendererMethods, canvas := self.canvas,
                                context := self.gl, alpha := true,
                                preserveDrawingBuffer := true, autoClear := true,
                                width := 300, height := 150 } }
  -- this.renderer.autoClear = false;
  updateRenderer fun r => { r with autoClear := false }
  -- this.scene = Utility.createCubeScene();
  emit Call.createCubeScene
  modifyApp fun a => { a with scene := some createCubeScene }
  -- this.camera = new THREE.PerspectiveCamera();
  emit Call.newPerspectiveCamera
  modifyApp fun a => { a with camera := some env.newCamera }
  -- this.camera.matrixAutoUpdate = false;
  updateCamera fun c => { c with matrixAutoUpdate := false }

/-- `App.onSessionStarted()`. -/
def onSessionStarted (env : Env) : Js Unit := do
  emit (Call.enter "onSessionStarted")
  -- document.body.classList.add('ar');
  bodyClassListAdd "ar"
  -- this.setupThreeJS();
  setupThreeJS env
  -- this.localReferenceSpace = await this.xrSession.requestReferenceSpace("local");
  let self ← getApp
  let session ← deref "this.xrSession" self.xrSession
  let space ← requestReferenceSpace env session "local"
  modifyApp fun a => { a with localReferenceSpace := some space }
  -- this.xrSession.requestAnimationFrame(this.onXRFrame);
  let self ← getApp
  let session ← deref "this.xrSession" self.xrSession
  requestAnimationFrame session "onXRFrame"

/-- `App.activateXR`: the click handler of the entry element. -/
def activateXR (env : Env) : Js Unit :=
  tryCatchJs
    (do
      emit (Call.enter "activateXR")
      -- this.xrSession = await navigator.xr.requestSession('immersive-ar');
      let session ← requestSession env "immersive-ar"
      modifyApp fun a => { a with xrSession := some session }
      -- this.createXRCanvas();
      createXRCanvas env
      -- await this.onSessionStarted();
      onSessionStarted env)
    (fun _ => onNoXRDevice)

/-! ## `activateXR` with its suspension points

`activateXR` is an `async` function: it is suspended at the `await` of line 31
and, inside `onSessionStarted`, at the `await` of line 63, and goes on when the
platform answers. Between the pieces the platform may deliver anything else,
another click included. The three pieces are given here; `activateXR` above is
the run in which nothing comes in between (`deliver_uninterrupted`). -/

/-- `activateXR` from the click to its first `await` (line 31): the session is
requested. -/
def activateXR_request : Js Unit := do
  emit (Call.enter "activateXR")
  emit (Call.requestSession "immersive-ar")

/-- `onSessionStarted` up to its `await` (line 63): the reference space is
requested on the session held in `this.xrSession`, whose handle is the
result. -/
def onSessionStarted_request (env : Env) : Js Nat := do
  emit (Call.enter "onSessionStarted")
  -- document.body.classList.add('ar');
  bodyClassListAdd "ar"
  -- this.setupThreeJS();
  setupThreeJS env
  -- this.xrSession.requestReferenceSpace("local")
  let self ← getApp
  let session ← deref "this.xrSession" self.xrSession
  emit (Call.requestReferenceSpace session.handle "local")
  pure session.handle

/-- `activateXR` from the answer to the session request up to the `await` of
line 63. The result is the session the reference space was requested on when
the run is suspended there, and `none` when the run is over because the
`catch` ran. -/
def activateXR_sessionSettled (env : Env) : Js (Option Nat) :=
  tryCatchJs
    (do
      -- this.xrSession = await navigator.xr.requestSession('immersive-ar');
      settle (env.sessionRejection "immersive-ar")
      let handle ← fresh
      modifyApp fun a =>
        { a with xrSession := some { handle := handle, renderState := { baseLayer := none } } }
      -- this.createXRCanvas();
      createXRCanvas env
      -- await this.onSessionStarted();
      let requestedOn ← onSessionStarted_request env
      pure (some requestedOn))
    (fun _ => do
      onNoXRDevice
      pure none)

/-- `onSessionStarted` from the answer to the reference space request to its
end; `requestedOn` is the session the space was requested on. -/
def onSessionStarted_resume (env : Env) (requestedOn : Nat) : Js Unit := do
  -- this.localReferenceSpace = await ...;
  settle (env.referenceSpaceRejection "local")
  modifyApp fun a =>
    { a with localReferenceSpace := some { kind := "local", session := requestedOn } }
  -- this.xrSession.requestAnimationFrame(this.onXRFrame);
  let self ← getApp
  let session ← deref "this.xrSession" self.xrSession
  requestAnimationFrame session "onXRFrame"

/-- `activateXR` from the answer to the reference space request to its end. -/
def activateXR_spaceSettled (env : Env) (requestedOn : Nat) : Js Unit :=
  tryCatchJs (onSessionStarted_resume env requestedOn) (fun _ => onNoXRDevice)

/-- `App.onXRFrame(time, frame)`: the frame callback. -/
def onXRFrame (_time : Nat) (frame : XRFrame) : Js Unit := do
  -- this.xrSession.requestAnimationFrame(this.onXRFrame);
  let self ← getApp
  let session ← deref "this.xrSession" self.xrSession
  requestAnimationFrame session "onXRFrame"
  -- const framebuffer = this.xrSession.renderState.baseLayer.framebuffer;
  let self ← getApp
  let session ← deref "this.xrSession" self.xrSession
  let baseLayer ← deref "this.xrSession.renderState.baseLayer" session.renderState.baseLayer
  let framebuffer := baseLayer.framebuffer
  -- this.gl.bindFramebuffer(this.gl.FRAMEBUFFER, framebuffer);
  let gl ← deref "this.gl" self.gl
  emit (Call.bindFramebuffer gl framebuffer)
  -- this.renderer.SetFramebuffer(framebuffer);
  let renderer ← deref "this.renderer" self.renderer
  rendererFunction renderer "SetFramebuffer"
  emit (Call.rendererMethod "SetFramebuffer" framebuffer)
  -- const pose = frame.getViewerPose(this.localReferenceSpace);
  let space ← deref "this.localReferenceSpace" self.localReferenceSpace
  emit (Call.getViewerPose space)
  match frame.getViewerPose space with
  | none => pure ()
  | some pose =>
    -- const view = pose.views[0];
    let view := pose.views.head?
    -- const viewport = this.xrSession.renderState.baseLayer.getViewport(view);
    let self ← getApp
    let session ← deref "this.xrSession" self.xrSession
    let baseLayer ← deref "this.xrSession.renderState.baseLayer" session.renderState.baseLayer
    emit (Call.getViewport session.handle)
    let view ← deref "view" view
    let viewport := baseLayer.getViewport view
    -- this.renderer.setSize(viewport.width, viewport.height);
    let renderer ← deref "this.renderer" self.renderer
    rendererFunction renderer "setSize"
    emit (Call.setSize viewport.width viewport.height)
    updateRenderer fun r => { r with width := viewport.width, height := viewport.height }
    -- this.camera.matrix.fromArray(view.transform.matrix);
    updateCamera fun c => { c with matrix := Matrix4.fromArray c.matrix view.transform.matrix }
    emit (Call.matrixFromArray view.transform.matrix)
    -- this.camera.projectionMatrix.fromArray(view.projectionMatrix);
    updateCamera fun c =>
      { c with projectionMatrix := Matrix4.fromArray c.projectionMatrix view.projectionMatrix }
    emit (Call.projectionMatrixFromArray view.projectionMatrix)
    -- this.camera.updateMatrixWorld(true);
    updateCamera fun c => c.updateMatrixWorld true
    emit (Call.updateMatrixWorld true)
    -- this.renderer.render(this.scene, this.camera);
    let self ← getApp
    let renderer ← deref "this.renderer" self.renderer
    rendererFunction renderer "render"
    let camera ← deref "this.camera" self.camera
    emit (Call.render self.scene camera)

/-! ## `src/index.js`: the startup capability probe -/

/-- `navigator.xr`: `isSessionSupported` may be missing; when present it
resolves with a boolean or rejects. -/
structure XRSystem where
  isSessionSupported : Option (String → Except JsError Bool)

/-- `navigator`: `xr` may be missing. -/
structure Navigator where
  xr : Option XRSystem

/-- The page the script runs in: the ids of its elements. -/
structure Document where
  elementIds : List String

/-- `document.getElementById(id)`: the element, or `null`. -/
def getElementById (doc : Document) (id : String) : Js (Option String) := do
  emit (Call.getElementById id)
  pure (if id ∈ doc.elementIds then some id else none)

/-- `element.addEventListener(type, listener)`. -/
def addEventListener (id : String) (type : String) (listener : String) : Js Unit := fun w =>
  (Except.ok (), { w with listeners := w.listeners ++ [(id, type, listener)],
                          trace := w.trace ++ [Call.addEventListener id type listener] })

/-- The value of `navigator.xr && navigator.xr.isSessionSupported &&
await navigator.xr.isSessionSupported("immersive-ar")`, as a truth value. -/
def isArSupported (nav : Navigator) : Js Bool :=
  match nav.xr with
  | none => pure false
  | some xr =>
    match xr.isSessionSupported with
    | none => pure false
    | some query => do
      emit (Call.isSessionSupported "immersive-ar")
      match query "immersive-ar" with
      | Except.ok supported => pure supported
      | Except.error e => raise e

/-- The async function run when the script is loaded. -/
def startup (nav : Navigator) (doc : Document) : Js Unit := do
  let supported ← isArSupported nav
  if supported then
    -- document.getElementById("enter-ar").addEventListener("click", window.app.activateXR)
    let element ← getElementById doc "enter-ar"
    let element ← deref "document.getElementById(enter-ar)" element
    addEventListener element "click" "activateXR"
  else
    onNoXRDevice

/-! ## The platform driving the program -/

/-- The world before the script runs: `window.app = new App()` has no field
set. -/
def World.empty : World :=
  { app := { xrSession := none, canvas := none, gl := none, renderer := none, scene := none,
             camera := none, localReferenceSpace := none },
    bodyClasses := [], listeners := [], scheduled := [], nextHandle := 0, trace := [] }

/-- What the platform delivers to the program after start-up. -/
inductive PlatformEvent where
  /-- The user clicks the entry element and the platform answers the requests
  of the activation before it delivers anything else; `env` is what the
  collaborators answer during the activation. -/
  | click (env : Env)
  /-- An animation frame of a session. -/
  | frame (session : Nat) (time : Nat) (frame : XRFrame)
  /-- The session has ended. -/
  | sessionEnd (session : Nat)

/-- The code of the program run by a platform event. A click runs every
listener attached to the click of the entry element (the source attaches only
`activateXR`); a frame runs the callbacks registered on its session, which
are one-shot (the source registers only `onXRFrame`), an exception thrown by a
callback is reported and does not stop the others; on the end of a session the
platform drops the callbacks pending on it and no code of the program runs,
the source attaches no listener to a session. -/
def dispatch : PlatformEvent → World → World
  | PlatformEvent.click env, w =>
    (w.listeners.filter fun l => l == ("enter-ar", "click", "activateXR")).foldl
      (fun w1 _ => ((activateXR env).run w1).2) w
  | PlatformEvent.frame session time frame, w =>
    (w.scheduled.filter fun s => s == session).foldl
      (fun w1 _ => ((onXRFrame time frame).run w1).2)
      { w with scheduled := w.scheduled.filter fun s => s != session }
  | PlatformEvent.sessionEnd session, w =>
    { w with scheduled := w.scheduled.filter fun s => s != session }

/-- The world after one invocation of the frame callback. An exception the
callback throws is reported by the platform; what it did before stays done. -/
def afterFrame (time : Nat) (frame : XRFrame) (w : World) : World :=
  ((onXRFrame time frame).run w).2

/-- The world after one run of `activateXR`. -/
def afterActivation (env : Env) (w : World) : World := ((activateXR env).run w).2

/-- The world after the startup function ran. -/
def afterStartup (nav : Navigator) (doc : Document) (w : World) : World :=
  ((startup nav doc).run w).2

/-- The world after a sequence of platform events. -/
def runEvents (events : List PlatformEvent) (w : World) : World :=
  events.foldl (fun w1 e => dispatch e w1) w

/-- The program with its suspended runs of `activateXR`: how many wait for
the answer to their session request, and, for those that wait for a reference
space, the session each requested it on. -/
structure Page where
  world : World
  awaitingSession : Nat
  awaitingSpace : List Nat

/-- What the platform delivers when the answers to the requests of
`activateXR` are events of their own. -/
inductive AsyncEvent where
  /-- The user clicks the entry element. -/
  | click
  /-- The session request of a suspended run is answered; `env` holds the
  answer and what the collaborators answer until the next `await`. -/
  | sessionSettled (env : Env)
  /-- The reference space request of the suspended run at position `run` is
  answered. -/
  | spaceSettled (run : Nat) (env : Env)
  /-- An animation frame of a session. -/
  | frame (session : Nat) (time : Nat) (frame : XRFrame)
  /-- The session has ended. -/
  | sessionEnd (session : Nat)

/-- The runs a piece of `activateXR` leaves suspended at the reference space
request: the session the space was requested on, when there is one. -/
def suspendedOn : Except JsError (Option Nat) → List Nat
  | Except.ok (some requestedOn) => [requestedOn]
  | _ => []

/-- The code of the program run by an event, each suspended run going on when
its request is answered. An answer nobody waits for runs nothing. -/
def deliver : AsyncEvent → Page → Page
  | AsyncEvent.click, p =>
    { p with
      world :=
        (p.world.listeners.filter fun l => l == ("enter-ar", "click", "activateXR")).foldl
          (fun w1 _ => (activateXR_request.run w1).2) p.world,
      awaitingSession := p.awaitingSession
        + (p.world.listeners.filter fun l => l == ("enter-ar", "click", "activateXR")).length }
  | AsyncEvent.sessionSettled env, p =>
    if p.awaitingSession = 0 then p
    else
      { world := ((activateXR_sessionSettled env).run p.world).2,
        awaitingSession := p.awaitingSession - 1,
        awaitingSpace := p.awaitingSpace
          ++ suspendedOn ((activateXR_sessionSettled env).run p.world).1 }
  | AsyncEvent.spaceSettled run env, p =>
    match p.awaitingSpace[run]? with
    | none => p
    | some requestedOn =>
      { p with
        world := ((activateXR_spaceSettled env requestedOn).run p.world).2,
        awaitingSpace := p.awaitingSpace.eraseIdx run }
  | AsyncEvent.frame session time frame, p =>
    { p with world := dispatch (PlatformEvent.frame session time frame) p.world }
  | AsyncEvent.sessionEnd session, p =>
    { p with world := dispatch (PlatformEvent.sessionEnd session) p.world }

/-- The page after a sequence of events. -/
def deliverAll (events : List AsyncEvent) (p : Page) : Page :=
  events.foldl (fun p1 e => deliver e p1) p

/-- A platform answer that grants the session, the graphics context, the
render state and the reference space. -/
def Env.Granted (env : Env) : Prop :=
  env.sessionRejection "immersive-ar" = none ∧ env.contextCreated = true
    ∧ env.renderStateRejection = none ∧ env.referenceSpaceRejection "local" = none

/-- A click, or an answer that grants what was requested. -/
def AsyncEvent.GrantedActivation : AsyncEvent → Prop
  | AsyncEvent.click => True
  | AsyncEvent.sessionSettled env => env.Granted
  | AsyncEvent.spaceSettled _ env => env.Granted
  | AsyncEvent.frame _ _ _ => False
  | AsyncEvent.sessionEnd _ => False

/-- A click. -/
def AsyncEvent.isClick : AsyncEvent → Bool
  | AsyncEvent.click => true
  | _ => false

/-- Every run suspended at the reference space request has called
`updateRenderState` on the session it requested the space on. -/
def Page.RunsBound (p : Page) : Prop :=
  ∀ h ∈ p.awaitingSpace, ∃ layer, Call.updateRenderState h layer ∈ p.world.trace

/-- The condition under which the frame callback runs: whenever a frame
callback is pending, `this.xrSession` holds a session. -/
def FramesHaveSession (w : World) : Prop :=
  w.app.xrSession.isSome = true ∨ w.scheduled = []

/-! ## Reading traces -/

/-- The calls made between two worlds of one run. -/
def callsSince (w w1 : World) : List Call := w1.trace.drop w.trace.length

/-- A call of `requestAnimationFrame`. -/
def Call.isRequestAnimationFrame : Call → Bool
  | Call.requestAnimationFrame _ _ => true
  | _ => false

/-- A call of `renderer.render`. -/
def Call.isRender : Call → Bool
  | Call.render _ _ => true
  | _ => false

/-- A call of `renderer.setSize`. -/
def Call.isSetSize : Call → Bool
  | Call.setSize _ _ => true
  | _ => false

/-- A call of `navigator.xr.requestSession`. -/
def Call.isRequestSession : Call → Bool
  | Call.requestSession _ => true
  | _ => false

/-- A call of `session.updateRenderState`. -/
def Call.isUpdateRenderState : Call → Bool
  | Call.updateRenderState _ _ => true
  | _ => false

/-- The entry into the named function of the source. -/
def Call.isEnter (fn : String) : Call → Bool
  | Call.enter name => name == fn
  | _ => false

/-- Attaching a listener to an element. -/
def Call.isAddEventListener : Call → Bool
  | Call.addEventListener _ _ _ => true
  | _ => false

/-- A call of `updateRenderState` on the given session. -/
def Call.isUpdateRenderStateOn (session : Nat) : Call → Bool
  | Call.updateRenderState s _ => s == session
  | _ => false

/-- A call of `requestAnimationFrame` on the given session. -/
def Call.isRequestAnimationFrameOn (session : Nat) : Call → Bool
  | Call.requestAnimationFrame s _ => s == session
  | _ => false

/-- A call of `frame.getViewerPose`. -/
def Call.isGetViewerPose : Call → Bool
  | Call.getViewerPose _ => true
  | _ => false

/-- A call of a function of the renderer to bind a framebuffer. -/
def Call.isRendererMethod : Call → Bool
  | Call.rendererMethod _ _ => true
  | _ => false

/-- Creating a canvas or a graphics context. -/
def Call.isSurfaceCreation : Call → Bool
  | Call.createElement _ => true
  | Call.getContext _ _ _ => true
  | Call.newXRWebGLLayer _ _ => true
  | _ => false

/-- The bookkeeping of activations in a page where `activateXR` is the one
click listener: `clicks` sessions were requested; each request is still
unanswered or led to one `updateRenderState` call; each of those runs still
waits for its reference space or registered one frame callback; and a session
is held whenever a run waits for its reference space. -/
def Page.Counted (p : Page) (clicks : Nat) : Prop :=
  (p.world.listeners.filter fun l => l == ("enter-ar", "click", "activateXR"))
      = [("enter-ar", "click", "activateXR")]
    ∧ (p.awaitingSpace ≠ [] → p.world.app.xrSession.isSome = true)
    ∧ p.world.trace.countP Call.isRequestSession = clicks
    ∧ p.world.trace.countP Call.isUpdateRenderState + p.awaitingSession = clicks
    ∧ p.world.trace.countP Call.isRequestAnimationFrame + p.awaitingSpace.length
        = p.world.trace.countP Call.isUpdateRenderState

/-! ## Concrete collaborators -/

/-- Modelled from the spec: the functions of the Renderer collaborator, which
is three.js code and not under `src/`: `render(scene, camera)`,
`setSize(width, height)` and `setFramebuffer(handle)`. -/
def rendererInterface : List String := ["render", "setSize", "setFramebuffer"]

/-- The identity matrix, in the column-major layout of `THREE.Matrix4`. -/
def identityMatrix : Mat4 := fun i => if i.val % 5 = 0 then 1 else 0

/-- The projection matrix of `new THREE.PerspectiveCamera()` (field of view 50
degrees, aspect 1, near 0.1, far 2000), its entries rounded to sixteen
decimals. -/
def perspectiveProjection : Mat4 := fun i =>
  if i.val = 0 ∨ i.val = 5 then 21445069205095586 / 10000000000000000
  else if i.val = 10 then -(20001 / 19999)
  else if i.val = 11 then -1
  else if i.val = 14 then -(4000 / 19999)
  else 0

/-- A platform that grants every request, with a renderer that carries the
functions of the Renderer interface. -/
def grantingEnv : Env :=
  { sessionRejection := fun _ => none,
    contextCreated := true,
    framebuffer := fun session => session + 100,
    getViewport := fun _ => { x := 0, y := 0, width := 640, height := 480 },
    renderStateRejection := none,
    referenceSpaceRejection := fun _ => none,
    rendererMethods := rendererInterface,
    newCamera := { matrix := identityMatrix, projectionMatrix := perspectiveProjection,
                   matrixWorld := identityMatrix, matrixAutoUpdate := true,
                   composed := identityMatrix } }

/-- The same platform with a renderer that carries, besides the functions of
the Renderer interface, one under the name `SetFramebuffer`. -/
def aliasedEnv : Env :=
  { grantingEnv with rendererMethods := "SetFramebuffer" :: rendererInterface }

/-- A platform that grants the session and whose `getContext` returns
`null`. -/
def noContextEnv : Env := { grantingEnv with contextCreated := false }

/-- A platform that refuses the session request. -/
def denyingEnv : Env :=
  { grantingEnv with sessionRejection := fun _ => some (JsError.domException "NotSupportedError") }

/-- A browser with WebXR that reports support for every mode. -/
def supportingNavigator : Navigator :=
  { xr := some { isSessionSupported := some fun _ => Except.ok true } }

/-- A page with the entry element. -/
def page : Document := { elementIds := ["enter-ar"] }

/-- A view with its own transform and projection. -/
def sampleView : XRView :=
  { transform := { matrix := fun i => (i.val : Num) + 2 },
    projectionMatrix := fun i => (i.val : Num) + 3 }

/-- A frame whose pose resolves in every reference space. -/
def posedFrame : XRFrame := { getViewerPose := fun _ => some { views := [sampleView] } }

/-- A frame whose pose does not resolve. -/
def unposedFrame : XRFrame := { getViewerPose := fun _ => none }

/-- The world once the script has run in a supporting browser. -/
def loadedWorld : World := ((startup supportingNavigator page).run World.empty).2

/-- The world once the user has clicked the entry element and the platform
has granted everything: the session is active, its first frame is pending. -/
def activeWorld : World := dispatch (PlatformEvent.click grantingEnv) loadedWorld

/-- The page once the script has run in a supporting browser: no run of
`activateXR` is suspended. -/
def loadedPage : Page := { world := loadedWorld, awaitingSession := 0, awaitingSpace := [] }

/-- Two clicks in a row, then the answers to both session requests, then to
both reference space requests, all granted. -/
def twoActivations : List AsyncEvent :=
  [AsyncEvent.click, AsyncEvent.click, AsyncEvent.sessionSettled grantingEnv,
   AsyncEvent.sessionSettled grantingEnv, AsyncEvent.spaceSettled 0 grantingEnv,
   AsyncEvent.spaceSettled 0 grantingEnv]

/-- A first run suspended at its reference space request, a second click
whose session is granted without a graphics context, then the reference space
of the first run. -/
def overtakenActivation : List AsyncEvent :=
  [AsyncEvent.click, AsyncEvent.sessionSettled grantingEnv, AsyncEvent.click,
   AsyncEvent.sessionSettled noContextEnv, AsyncEvent.spaceSettled 0 grantingEnv]

/-- The active world when the renderer also carries `SetFramebuffer`. -/
def aliasedWorld : World := dispatch (PlatformEvent.click aliasedEnv) loadedWorld

/-! ## Evaluation lemmas -/

@[simp] theorem resume_ok {α β : Type} (a : α) (w : World) (f : α → Js β) :
    resume (Except.ok a, w) f = (f a).run w := rfl

@[simp] theorem resume_error {α β : Type} (e : JsError) (w : World) (f : α → Js β) :
    resume (Except.error e, w) f = (Except.error e, w) := rfl

@[simp] theorem run_pure {α : Type} (a : α) (w : World) :
    (pure a : Js α).run w = (Except.ok a, w) := rfl

@[simp] theorem run_bind {α β : Type} (m : Js α) (f : α → Js β) (w : World) :
    (m >>= f).run w = resume (m.run w) f := by
  show Js.bind m f w = resume (m w) f
  unfold Js.bind resume Js.run
  rcases m w with ⟨r, w1⟩
  cases r <;> rfl

@[simp] theorem run_raise {α : Type} (e : JsError) (w : World) :
    (raise e : Js α).run w = (Except.error e, w) := rfl

@[simp] theorem run_getApp (w : World) : getApp.run w = (Except.ok w.app, w) := rfl

@[simp] theorem run_modifyApp (f : App → App) (w : World) :
    (modifyApp f).run w = (Except.ok (), { w with app := f w.app }) := rfl

@[simp] theorem run_emit (c : Call) (w : World) :
    (emit c).run w = (Except.ok (), { w with trace := w.trace ++ [c] }) := rfl

@[simp] theorem run_deref_some {α : Type} (what : String) (a : α) (w : World) :
    (deref what (some a)).run w = (Except.ok a, w) := rfl

@[simp] theorem run_deref_none {α : Type} (what : String) (w : World) :
    (deref what (none : Option α)).run w
      = (Except.error (JsError.typeError (what ++ " is undefined")), w) := rfl

@[simp] theorem run_settle_none (w : World) : (settle none).run w = (Except.ok (), w) := rfl

@[simp] theorem run_settle_some (e : JsError) (w : World) :
    (settle (some e)).run w = (Except.error e, w) := rfl

@[simp] theorem run_fresh (w : World) :
    fresh.run w = (Except.ok w.nextHandle, { w with nextHandle := w.nextHandle + 1 }) := rfl

@[simp] theorem run_bodyClassListAdd (cls : String) (w : World) :
    (bodyClassListAdd cls).run w
      = (Except.ok (), { w with bodyClasses := tokenListAdd cls w.bodyClasses,
                                trace := w.trace ++ [Call.classListAdd cls] }) := rfl

@[simp] theorem run_requestAnimationFrame (session : XRSession) (callback : String) (w : World) :
    (requestAnimationFrame session callback).run w
      = (Except.ok (), { w with scheduled := w.scheduled ++ [session.handle],
                                trace := w.trace
                                  ++ [Call.requestAnimationFrame session.handle callback] }) := rfl

@[simp] theorem run_addEventListener (id type listener : String) (w : World) :
    (addEventListener id type listener).run w
      = (Except.ok (), { w with listeners := w.listeners ++ [(id, type, listener)],
                                trace := w.trace ++ [Call.addEventListener id type listener] }) :=
  rfl

theorem run_tryCatchJs {α : Type} (body : Js α) (handler : JsError → Js α) (w : World) :
    (tryCatchJs body handler).run w
      = match body.run w with
        | (Except.ok a, w1) => (Except.ok a, w1)
        | (Except.error e, w1) => (handler e).run w1 := rfl

@[simp] theorem run_rendererFunction_mem (renderer : WebGLRenderer) (name : String) (w : World)
    (h : name ∈ renderer.methods) :
    (rendererFunction renderer name).run w = (Except.ok (), w) := by
  simp [rendererFunction, h]

@[simp] theorem run_rendererFunction_not_mem (renderer : WebGLRenderer) (name : String)
    (w : World) (h : name ∉ renderer.methods) :
    (rendererFunction renderer name).run w
      = (Except.error (JsError.typeError ("this.renderer." ++ name ++ " is not a function")), w) := by
  simp [rendererFunction, h]

/-- `fromArray` leaves exactly the entries of the array, whatever the matrix
held before. -/
theorem Matrix4.fromArray_eq (elements array : Mat4) :
    Matrix4.fromArray elements array = array := rfl

@[simp] theorem callsSince_append (w : World) (app : App) (bodyClasses : List String)
    (listeners : List (String × String × String)) (scheduled : List Nat) (nextHandle : Nat)
    (calls : List Call) :
    callsSince w { app := app, bodyClasses := bodyClasses, listeners := listeners,
                   scheduled := scheduled, nextHandle := nextHandle,
                   trace := w.trace ++ calls } = calls := by
  simp [callsSince]

/-! ## The frame loop -/

/-- The frame callback when no pose resolves: the `App` instance is left as it
was and neither `render` nor `setSize` is called. -/
theorem onXRFrame_absent_step (time : Nat) (frame : XRFrame) (w : World)
    (h : ∀ space, w.app.localReferenceSpace = some space → frame.getViewerPose space = none) :
    (afterFrame time frame w).app = w.app
      ∧ ∃ calls, (afterFrame time frame w).trace = w.trace ++ calls
          ∧ calls.countP Call.isRender = 0 ∧ calls.countP Call.isSetSize = 0 := by
  unfold afterFrame
  cases hx : w.app.xrSession with
  | none => simp [onXRFrame, hx]
  | some session =>
    cases hb : session.renderState.baseLayer with
    | none => simp [onXRFrame, hx, hb, Call.isRender, Call.isSetSize]
    | some baseLayer =>
      cases hg : w.app.gl with
      | none => simp [onXRFrame, hx, hb, hg, Call.isRender, Call.isSetSize]
      | some gl =>
        cases hr : w.app.renderer with
        | none => simp [onXRFrame, hx, hb, hg, hr, Call.isRender, Call.isSetSize]
        | some renderer =>
          by_cases hm : "SetFramebuffer" ∈ renderer.methods
          · cases hs : w.app.localReferenceSpace with
            | none => simp [onXRFrame, hx, hb, hg, hr, hm, hs, Call.isRender, Call.isSetSize]
            | some space =>
              have hp := h space hs
              simp [onXRFrame, hx, hb, hg, hr, hm, hs, hp, Call.isRender, Call.isSetSize]
          · simp [onXRFrame, hx, hb, hg, hr, hm, Call.isRender, Call.isSetSize]

/-- Any number of invocations without a pose: the `App` instance is left as it
was and neither `render` nor `setSize` is called. -/
theorem onXRFrame_absent_iterate (time : Nat) (frame : XRFrame) (n : Nat) (w : World)
    (h : ∀ space, w.app.localReferenceSpace = some space → frame.getViewerPose space = none) :
    ((afterFrame time frame)^[n] w).app = w.app
      ∧ ∃ calls, ((afterFrame time frame)^[n] w).trace = w.trace ++ calls
          ∧ calls.countP Call.isRender = 0 ∧ calls.countP Call.isSetSize = 0 := by
  induction n generalizing w with
  | zero => exact ⟨rfl, [], by simp⟩
  | succ n ih =>
    obtain ⟨happ, calls1, htrace1, hrender1, hsize1⟩ := onXRFrame_absent_step time frame w h
    have h1 : ∀ space, (afterFrame time frame w).app.localReferenceSpace = some space →
        frame.getViewerPose space = none := by
      intro space hs
      rw [happ] at hs
      exact h space hs
    obtain ⟨happ2, calls2, htrace2, hrender2, hsize2⟩ := ih (afterFrame time frame w) h1
    rw [Function.iterate_succ_apply]
    refine ⟨happ2.trans happ, calls1 ++ calls2, ?_, ?_, ?_⟩
    · rw [htrace2, htrace1, List.append_assoc]
    · simp [List.countP_append, hrender1, hrender2]
    · simp [List.countP_append, hsize1, hsize2]

/-- The frame callback when every step succeeds: the renderer carries the
three functions the callback names, a pose with a first view resolves. The
result is the explicit trace and the camera and renderer updated from the
view. -/
theorem onXRFrame_present_run (time : Nat) (frame : XRFrame) (w : World)
    (session : XRSession) (baseLayer : XRWebGLLayer) (gl : Nat) (renderer : WebGLRenderer)
    (space : XRReferenceSpace) (camera : PerspectiveCamera) (pose : XRViewerPose) (view : XRView)
    (hx : w.app.xrSession = some session)
    (hb : session.renderState.baseLayer = some baseLayer)
    (hg : w.app.gl = some gl)
    (hr : w.app.renderer = some renderer)
    (hs : w.app.localReferenceSpace = some space)
    (hc : w.app.camera = some camera)
    (hm : "SetFramebuffer" ∈ renderer.methods)
    (hz : "setSize" ∈ renderer.methods)
    (hd : "render" ∈ renderer.methods)
    (hp : frame.getViewerPose space = some pose)
    (hv : pose.views.head? = some view) :
    (onXRFrame time frame).run w
      = (Except.ok (),
          { w with
            app :=
              { w.app with
                renderer := some { renderer with width := (baseLayer.getViewport view).width,
                                                 height := (baseLayer.getViewport view).height },
                camera := some
                  (PerspectiveCamera.updateMatrixWorld
                    { camera with matrix := view.transform.matrix,
                                  projectionMatrix := view.projectionMatrix } true) },
            scheduled := w.scheduled ++ [session.handle],
            trace := w.trace ++
              [Call.requestAnimationFrame session.handle "onXRFrame",
               Call.bindFramebuffer gl baseLayer.framebuffer,
               Call.rendererMethod "SetFramebuffer" baseLayer.framebuffer,
               Call.getViewerPose space,
               Call.getViewport session.handle,
               Call.setSize (baseLayer.getViewport view).width (baseLayer.getViewport view).height,
               Call.matrixFromArray view.transform.matrix,
               Call.projectionMatrixFromArray view.projectionMatrix,
               Call.updateMatrixWorld true,
               Call.render w.app.scene
                 (PerspectiveCamera.updateMatrixWorld
                    { camera with matrix := view.transform.matrix,
                                  projectionMatrix := view.projectionMatrix } true)] }) := by
  simp [onXRFrame, hx, hb, hg, hr, hs, hc, hm, hz, hd, hp, hv, updateRenderer, updateCamera,
    Matrix4.fromArray_eq]

/-- The frame callback on a renderer that carries no function named
`SetFramebuffer`: the callback re-registers, binds the framebuffer on the GL
context and then throws a `TypeError`; it never asks for the pose. -/
theorem onXRFrame_throws_run (time : Nat) (frame : XRFrame) (w : World)
    (session : XRSession) (baseLayer : XRWebGLLayer) (gl : Nat) (renderer : WebGLRenderer)
    (hx : w.app.xrSession = some session)
    (hb : session.renderState.baseLayer = some baseLayer)
    (hg : w.app.gl = some gl)
    (hr : w.app.renderer = some renderer)
    (hm : "SetFramebuffer" ∉ renderer.methods) :
    (onXRFrame time frame).run w
      = (Except.error (JsError.typeError "this.renderer.SetFramebuffer is not a function"),
          { w with
            scheduled := w.scheduled ++ [session.handle],
            trace := w.trace ++
              [Call.requestAnimationFrame session.handle "onXRFrame",
               Call.bindFramebuffer gl baseLayer.framebuffer] }) := by
  simp [onXRFrame, hx, hb, hg, hr, hm]

/-- C1. Whenever the frame callback `onXRFrame` is invoked, with a pose or
without, the first call it makes is `xrSession.requestAnimationFrame(onXRFrame)`,
it makes that call exactly once, and exactly one callback is added to the
pending ones: every framebuffer binding, resize, camera update and render call
of the invocation comes after it. The callback is invoked only while
`this.xrSession` holds a session (`reachable_frames_have_session`, and
`deliverAll_frames_have_session` with the `await`s as suspension points),
which is the hypothesis. -/
theorem onXRFrame_reregisters_first (time : Nat) (frame : XRFrame) (w : World)
    (session : XRSession) (h : w.app.xrSession = some session) :
    (callsSince w ((onXRFrame time frame).run w).2).head?
        = some (Call.requestAnimationFrame session.handle "onXRFrame")
      ∧ (callsSince w ((onXRFrame time frame).run w).2).countP Call.isRequestAnimationFrame
          = 1
      ∧ ((onXRFrame time frame).run w).2.scheduled = w.scheduled ++ [session.handle] := by
  simp only [onXRFrame, run_bind, run_getApp, resume_ok, h, run_deref_some,
    run_requestAnimationFrame]
  cases hb : session.renderState.baseLayer with
  | none => simp [Call.isRequestAnimationFrame]
  | some baseLayer =>
    cases hg : w.app.gl with
    | none => simp [Call.isRequestAnimationFrame]
    | some gl =>
      cases hr : w.app.renderer with
      | none => simp [Call.isRequestAnimationFrame]
      | some renderer =>
        by_cases hm : "SetFramebuffer" ∈ renderer.methods
        · cases hs : w.app.localReferenceSpace with
          | none => simp [Call.isRequestAnimationFrame, hm]
          | some space =>
            cases hp : frame.getViewerPose space with
            | none => simp [Call.isRequestAnimationFrame, hm, hp]
            | some pose =>
              cases hv : pose.views.head? with
              | none => simp [Call.isRequestAnimationFrame, hm, hp, h, hb, hr, hv]
              | some view =>
                by_cases hz : "setSize" ∈ renderer.methods
                · cases hc : w.app.camera with
                  | none =>
                    simp [Call.isRequestAnimationFrame, hm, hp, h, hb, hr, hv, hz, hc,
                      updateRenderer, updateCamera]
                  | some camera =>
                    by_cases hd : "render" ∈ renderer.methods
                    · simp [Call.isRequestAnimationFrame, hm, hp, h, hb, hr, hv, hz, hc, hd,
                        updateRenderer, updateCamera]
                    · simp [Call.isRequestAnimationFrame, hm, hp, h, hb, hr, hv, hz, hc, hd,
                        updateRenderer, updateCamera]
                · simp [Call.isRequestAnimationFrame, hm, hp, h, hb, hr, hv, hz]
        · simp [Call.isRequestAnimationFrame, hm]

/-- The witness of C1: in the active world, on a frame with a pose. -/
theorem onXRFrame_reregisters_first_witness :
    (activeWorld.app.xrSession.map fun session => session.handle) = some 0
      ∧ (callsSince activeWorld ((onXRFrame 0 posedFrame).run activeWorld).2).head?
          = some (Call.requestAnimationFrame 0 "onXRFrame")
      ∧ (callsSince activeWorld ((onXRFrame 0 posedFrame).run activeWorld).2).countP
          Call.isRequestAnimationFrame = 1
      ∧ ((onXRFrame 0 posedFrame).run activeWorld).2.scheduled = activeWorld.scheduled ++ [0] :=
  ⟨rfl,
    onXRFrame_reregisters_first 0 posedFrame activeWorld
      { handle := 0,
        renderState :=
          { baseLayer := some { session := 0, context := 2, framebuffer := 100,
                                getViewport := grantingEnv.getViewport } } }
      rfl⟩

/-- With a renderer that carries the functions the callback names and a
camera whose `matrixAutoUpdate` is off (as `setupThreeJS` leaves it), a frame
with a pose leaves the view's transform and projection in the camera, resizes
to the view's viewport and renders once. This is what lines 99 to 111 do when
they are reached. -/
theorem onXRFrame_present_camera (time : Nat) (frame : XRFrame) (w : World)
    (session : XRSession) (baseLayer : XRWebGLLayer) (gl : Nat) (renderer : WebGLRenderer)
    (space : XRReferenceSpace) (camera : PerspectiveCamera) (pose : XRViewerPose) (view : XRView)
    (hx : w.app.xrSession = some session)
    (hb : session.renderState.baseLayer = some baseLayer)
    (hg : w.app.gl = some gl)
    (hr : w.app.renderer = some renderer)
    (hs : w.app.localReferenceSpace = some space)
    (hc : w.app.camera = some camera)
    (hm : "SetFramebuffer" ∈ renderer.methods)
    (hz : "setSize" ∈ renderer.methods)
    (hd : "render" ∈ renderer.methods)
    (hp : frame.getViewerPose space = some pose)
    (hv : pose.views.head? = some view)
    (ha : camera.matrixAutoUpdate = false) :
    ∃ camera1, (afterFrame time frame w).app.camera = some camera1
      ∧ camera1.matrix = view.transform.matrix
      ∧ camera1.projectionMatrix = view.projectionMatrix
      ∧ camera1.matrixWorld = view.transform.matrix
      ∧ (callsSince w (afterFrame time frame w)).countP Call.isRender = 1
      ∧ (callsSince w (afterFrame time frame w)).filter Call.isSetSize
          = [Call.setSize (baseLayer.getViewport view).width (baseLayer.getViewport view).height] := by
  unfold afterFrame
  rw [onXRFrame_present_run time frame w session baseLayer gl renderer space camera pose view
    hx hb hg hr hs hc hm hz hd hp hv]
  refine ⟨_, rfl, ?_, ?_, ?_, ?_, ?_⟩
  · simp [PerspectiveCamera.updateMatrixWorld, ha]
  · simp [PerspectiveCamera.updateMatrixWorld, ha]
  · simp [PerspectiveCamera.updateMatrixWorld, ha]
  · simp [Call.isRender]
  · simp [Call.isSetSize]

/-- C2 fails on the code. In the active world the renderer carries the
functions of the Renderer interface, `setFramebuffer` among them; the callback
calls `SetFramebuffer`, which the renderer does not carry. On a frame whose
pose resolves the callback throws a `TypeError` at that call, before the pose
is asked for, and the camera keeps the matrices it had: they differ from the
transform and the projection of the view. -/
theorem onXRFrame_posed_camera_not_updated :
    (∀ space, posedFrame.getViewerPose space = some { views := [sampleView] })
      ∧ ((onXRFrame 0 posedFrame).run activeWorld).1
          = Except.error (JsError.typeError "this.renderer.SetFramebuffer is not a function")
      ∧ ∃ camera, (afterFrame 0 posedFrame activeWorld).app.camera = some camera
          ∧ camera.matrix = identityMatrix
          ∧ camera.projectionMatrix = perspectiveProjection
          ∧ camera.matrix ≠ sampleView.transform.matrix
          ∧ camera.projectionMatrix ≠ sampleView.projectionMatrix := by
  have hrun := onXRFrame_throws_run 0 posedFrame activeWorld
    { handle := 0,
      renderState :=
        { baseLayer := some { session := 0, context := 2, framebuffer := 100,
                              getViewport := grantingEnv.getViewport } } }
    { session := 0, context := 2, framebuffer := 100, getViewport := grantingEnv.getViewport }
    2
    { methods := rendererInterface, canvas := some 1, context := some 2, alpha := true,
      preserveDrawingBuffer := true, autoClear := false, width := 300, height := 150 }
    rfl rfl rfl rfl (by decide)
  refine ⟨fun _ => rfl, ?_, ?_⟩
  · rw [hrun]
  · unfold afterFrame
    rw [hrun]
    refine ⟨{ grantingEnv.newCamera with matrixAutoUpdate := false }, rfl, rfl, rfl, ?_, ?_⟩
    · intro h
      have h0 := congrFun h 0
      simp [grantingEnv, identityMatrix, sampleView] at h0
    · intro h
      have h0 := congrFun h 0
      simp [grantingEnv, perspectiveProjection, sampleView] at h0
      norm_num at h0

/-- C3. On a frame without a pose the callback calls neither `render` nor
`setSize` and leaves the camera (matrix and projection matrix included), the
scene and every other field of the `App` as they were; the same holds after
any number of such invocations, so camera and scene stay as the last frame
with a pose left them. -/
theorem onXRFrame_absent_pose_skips (time : Nat) (frame : XRFrame) (w : World)
    (h : ∀ space, w.app.localReferenceSpace = some space → frame.getViewerPose space = none)
    (n : Nat) :
    ((callsSince w (afterFrame time frame w)).countP Call.isRender = 0
        ∧ (callsSince w (afterFrame time frame w)).countP Call.isSetSize = 0
        ∧ (afterFrame time frame w).app.camera = w.app.camera
        ∧ (afterFrame time frame w).app.scene = w.app.scene)
      ∧ ((callsSince w ((afterFrame time frame)^[n] w)).countP Call.isRender = 0
        ∧ (callsSince w ((afterFrame time frame)^[n] w)).countP Call.isSetSize = 0
        ∧ ((afterFrame time frame)^[n] w).app.camera = w.app.camera
        ∧ ((afterFrame time frame)^[n] w).app.scene = w.app.scene) := by
  obtain ⟨happ, calls, htrace, hrender, hsize⟩ := onXRFrame_absent_step time frame w h
  obtain ⟨happn, callsn, htracen, hrendern, hsizen⟩ := onXRFrame_absent_iterate time frame n w h
  refine ⟨⟨?_, ?_, ?_, ?_⟩, ?_, ?_, ?_, ?_⟩
  · simpa [callsSince, htrace] using hrender
  · simpa [callsSince, htrace] using hsize
  · rw [happ]
  · rw [happ]
  · simpa [callsSince, htracen] using hrendern
  · simpa [callsSince, htracen] using hsizen
  · rw [happn]
  · rw [happn]

/-- The witness of C3: three frames without a pose, delivered to a world where
the callback gets as far as asking for the pose. -/
theorem onXRFrame_absent_pose_skips_witness :
    (∀ space, aliasedWorld.app.localReferenceSpace = some space →
        unposedFrame.getViewerPose space = none)
      ∧ (callsSince aliasedWorld (afterFrame 0 unposedFrame aliasedWorld)).countP
          Call.isGetViewerPose = 1
      ∧ (callsSince aliasedWorld ((afterFrame 0 unposedFrame)^[3] aliasedWorld)).countP
          Call.isRender = 0
      ∧ ((afterFrame 0 unposedFrame)^[3] aliasedWorld).app.camera = aliasedWorld.app.camera :=
  ⟨fun _ _ => rfl, rfl,
    (onXRFrame_absent_pose_skips 0 unposedFrame aliasedWorld (fun _ _ => rfl) 3).2.1,
    (onXRFrame_absent_pose_skips 0 unposedFrame aliasedWorld (fun _ _ => rfl) 3).2.2.2.1⟩

/-- C4 fails on the code, by the defect of C10. After a successful activation
with a renderer of the Renderer interface, a frame without a pose followed by
a frame with a pose are both delivered to the callback (it re-registers twice)
and neither `render` nor `setSize` is ever called: the callback throws at
`this.renderer.SetFramebuffer` on both frames. -/
theorem absent_then_posed_renders_nothing :
    (callsSince activeWorld
        (runEvents [PlatformEvent.frame 0 0 unposedFrame, PlatformEvent.frame 0 1 posedFrame]
          activeWorld)).countP Call.isRequestAnimationFrame = 2
      ∧ (callsSince activeWorld
        (runEvents [PlatformEvent.frame 0 0 unposedFrame, PlatformEvent.frame 0 1 posedFrame]
          activeWorld)).countP Call.isRender = 0
      ∧ (callsSince activeWorld
        (runEvents [PlatformEvent.frame 0 0 unposedFrame, PlatformEvent.frame 0 1 posedFrame]
          activeWorld)).countP Call.isSetSize = 0
      ∧ ((onXRFrame 1 posedFrame).run
          (runEvents [PlatformEvent.frame 0 0 unposedFrame] activeWorld)).1
          = Except.error (JsError.typeError "this.renderer.SetFramebuffer is not a function") :=
  ⟨rfl, rfl, rfl, rfl⟩

/-- The scenario of C4 when the renderer also carries `SetFramebuffer`: the
frame without a pose renders nothing, the frame with a pose resizes to the
640 by 480 viewport of its view and renders once. -/
theorem absent_then_posed_with_alias :
    (callsSince aliasedWorld
        (runEvents [PlatformEvent.frame 0 0 unposedFrame] aliasedWorld)).countP Call.isRender = 0
      ∧ (callsSince aliasedWorld
        (runEvents [PlatformEvent.frame 0 0 unposedFrame, PlatformEvent.frame 0 1 posedFrame]
          aliasedWorld)).countP Call.isRender = 1
      ∧ (callsSince aliasedWorld
        (runEvents [PlatformEvent.frame 0 0 unposedFrame, PlatformEvent.frame 0 1 posedFrame]
          aliasedWorld)).filter Call.isSetSize = [Call.setSize 640 480] :=
  ⟨rfl, rfl, rfl⟩

/-- C10 fails on the code. The renderer built by `setupThreeJS` carries the
functions of the Renderer interface, `setFramebuffer` among them, and none
named `SetFramebuffer`, the name line 97 calls. On every frame delivered after
a successful activation the callback re-registers, binds the framebuffer on
the GL context, and throws a `TypeError`: no function of the renderer is
called with the framebuffer and the pose is never asked for. -/
theorem onXRFrame_binding_step_throws (time : Nat) (frame : XRFrame) :
    (activeWorld.app.renderer.map fun renderer => renderer.methods)
        = some ["render", "setSize", "setFramebuffer"]
      ∧ ((onXRFrame time frame).run activeWorld).1
          = Except.error (JsError.typeError "this.renderer.SetFramebuffer is not a function")
      ∧ callsSince activeWorld ((onXRFrame time frame).run activeWorld).2
          = [Call.requestAnimationFrame 0 "onXRFrame", Call.bindFramebuffer 2 100]
      ∧ (callsSince activeWorld ((onXRFrame time frame).run activeWorld).2).countP
          Call.isRendererMethod = 0
      ∧ (callsSince activeWorld ((onXRFrame time frame).run activeWorld).2).countP
          Call.isGetViewerPose = 0 := by
  have hrun := onXRFrame_throws_run time frame activeWorld
    { handle := 0,
      renderState :=
        { baseLayer := some { session := 0, context := 2, framebuffer := 100,
                              getViewport := grantingEnv.getViewport } } }
    { session := 0, context := 2, framebuffer := 100, getViewport := grantingEnv.getViewport }
    2
    { methods := rendererInterface, canvas := some 1, context := some 2, alpha := true,
      preserveDrawingBuffer := true, autoClear := false, width := 300, height := 150 }
    rfl rfl rfl rfl (by decide)
  rw [hrun]
  refine ⟨rfl, rfl, ?_, ?_, ?_⟩
  · simp
  · simp [Call.isRendererMethod]
  · simp [Call.isGetViewerPose]

/-! ## Activation -/

/-- `activateXR` when the session request is rejected. -/
theorem activateXR_denied_run (env : Env) (w : World) (e : JsError)
    (h1 : env.sessionRejection "immersive-ar" = some e) :
    (activateXR env).run w
      = (Except.ok (),
          { w with
            bodyClasses := tokenListAdd "unsupported" w.bodyClasses,
            trace := w.trace ++
              [Call.enter "activateXR", Call.requestSession "immersive-ar",
               Call.enter "onNoXRDevice", Call.classListAdd "unsupported"] }) := by
  simp [activateXR, run_tryCatchJs, requestSession, onNoXRDevice, h1]

/-- `activateXR` when the session is granted and `getContext` returns `null`:
the layer constructor throws. -/
theorem activateXR_no_context_trace (env : Env) (w : World)
    (h1 : env.sessionRejection "immersive-ar" = none) (h2 : env.contextCreated = false) :
    (afterActivation env w).trace
      = w.trace ++
          [Call.enter "activateXR", Call.requestSession "immersive-ar",
           Call.enter "createXRCanvas", Call.createElement "canvas",
           Call.appendChild (w.nextHandle + 1), Call.getContext (w.nextHandle + 1) "webgl" true,
           Call.newXRWebGLLayer w.nextHandle none,
           Call.enter "onNoXRDevice", Call.classListAdd "unsupported"] := by
  simp [afterActivation, activateXR, run_tryCatchJs, requestSession, createXRCanvas,
    createElement, getContext, newXRWebGLLayer, onNoXRDevice, h1, h2]

/-- `activateXR` when the session and the context are granted and
`updateRenderState` throws. -/
theorem activateXR_unbound_trace (env : Env) (w : World) (e : JsError)
    (h1 : env.sessionRejection "immersive-ar" = none) (h2 : env.contextCreated = true)
    (h3 : env.renderStateRejection = some e) :
    (afterActivation env w).trace
      = w.trace ++
          [Call.enter "activateXR", Call.requestSession "immersive-ar",
           Call.enter "createXRCanvas", Call.createElement "canvas",
           Call.appendChild (w.nextHandle + 1), Call.getContext (w.nextHandle + 1) "webgl" true,
           Call.newXRWebGLLayer w.nextHandle (some (w.nextHandle + 1 + 1)),
           Call.updateRenderState w.nextHandle
             { session := w.nextHandle, context := w.nextHandle + 1 + 1,
               framebuffer := env.framebuffer w.nextHandle, getViewport := env.getViewport },
           Call.enter "onNoXRDevice", Call.classListAdd "unsupported"] := by
  simp [afterActivation, activateXR, run_tryCatchJs, requestSession, createXRCanvas,
    createElement, getContext, newXRWebGLLayer, updateRenderState, onNoXRDevice, h1, h2, h3]

/-- `activateXR` when the surface is bound and the reference space is
refused. -/
theorem activateXR_no_space_trace (env : Env) (w : World) (e : JsError)
    (h1 : env.sessionRejection "immersive-ar" = none) (h2 : env.contextCreated = true)
    (h3 : env.renderStateRejection = none) (h4 : env.referenceSpaceRejection "local" = some e) :
    (afterActivation env w).trace
      = w.trace ++
          [Call.enter "activateXR", Call.requestSession "immersive-ar",
           Call.enter "createXRCanvas", Call.createElement "canvas",
           Call.appendChild (w.nextHandle + 1), Call.getContext (w.nextHandle + 1) "webgl" true,
           Call.newXRWebGLLayer w.nextHandle (some (w.nextHandle + 1 + 1)),
           Call.updateRenderState w.nextHandle
             { session := w.nextHandle, context := w.nextHandle + 1 + 1,
               framebuffer := env.framebuffer w.nextHandle, getViewport := env.getViewport },
           Call.enter "onSessionStarted", Call.classListAdd "ar", Call.enter "setupThreeJS",
           Call.newWebGLRenderer (some (w.nextHandle + 1)) (some (w.nextHandle + 1 + 1)),
           Call.createCubeScene, Call.newPerspectiveCamera,
           Call.requestReferenceSpace w.nextHandle "local",
           Call.enter "onNoXRDevice", Call.classListAdd "unsupported"] := by
  simp [afterActivation, activateXR, run_tryCatchJs, requestSession, createXRCanvas,
    onSessionStarted, setupThreeJS, createElement, getContext, newXRWebGLLayer,
    updateRenderState, requestReferenceSpace, updateRenderer, updateCamera, onNoXRDevice,
    h1, h2, h3, h4]

/-- `activateXR` when the platform grants everything: the session, its
surface, the three.js objects and the reference space are stored in the `App`
and the first frame callback is registered. -/
theorem activateXR_granted_run (env : Env) (w : World)
    (h1 : env.sessionRejection "immersive-ar" = none) (h2 : env.contextCreated = true)
    (h3 : env.renderStateRejection = none) (h4 : env.referenceSpaceRejection "local" = none) :
    (activateXR env).run w
      = (Except.ok (),
          { app :=
              { xrSession := some
                  { handle := w.nextHandle,
                    renderState :=
                      { baseLayer := some
                          { session := w.nextHandle, context := w.nextHandle + 1 + 1,
                            framebuffer := env.framebuffer w.nextHandle,
                            getViewport := env.getViewport } } },
                canvas := some (w.nextHandle + 1),
                gl := some (w.nextHandle + 1 + 1),
                renderer := some
                  { methods := env.rendererMethods, canvas := some (w.nextHandle + 1),
                    context := some (w.nextHandle + 1 + 1), alpha := true,
                    preserveDrawingBuffer := true, autoClear := false, width := 300,
                    height := 150 },
                scene := some createCubeScene,
                camera := some { env.newCamera with matrixAutoUpdate := false },
                localReferenceSpace := some { kind := "local", session := w.nextHandle } },
            bodyClasses := tokenListAdd "ar" w.bodyClasses,
            listeners := w.listeners,
            scheduled := w.scheduled ++ [w.nextHandle],
            nextHandle := w.nextHandle + 1 + 1 + 1,
            trace := w.trace ++
              [Call.enter "activateXR", Call.requestSession "immersive-ar",
               Call.enter "createXRCanvas", Call.createElement "canvas",
               Call.appendChild (w.nextHandle + 1),
               Call.getContext (w.nextHandle + 1) "webgl" true,
               Call.newXRWebGLLayer w.nextHandle (some (w.nextHandle + 1 + 1)),
               Call.updateRenderState w.nextHandle
                 { session := w.nextHandle, context := w.nextHandle + 1 + 1,
                   framebuffer := env.framebuffer w.nextHandle, getViewport := env.getViewport },
               Call.enter "onSessionStarted", Call.classListAdd "ar", Call.enter "setupThreeJS",
               Call.newWebGLRenderer (some (w.nextHandle + 1)) (some (w.nextHandle + 1 + 1)),
               Call.createCubeScene, Call.newPerspectiveCamera,
               Call.requestReferenceSpace w.nextHandle "local",
               Call.requestAnimationFrame w.nextHandle "onXRFrame"] }) := by
  simp [activateXR, run_tryCatchJs, requestSession, createXRCanvas, onSessionStarted,
    setupThreeJS, createElement, getContext, newXRWebGLLayer, updateRenderState,
    requestReferenceSpace, updateRenderer, updateCamera, h1, h2, h3, h4]

/-- C5. When `navigator.xr.requestSession('immersive-ar')` fails, one run of
`activateXR` makes exactly these calls: the session request, once, and the
fallback `onNoXRDevice`, once. `createXRCanvas` is not entered, no canvas,
context or layer is created, `updateRenderState` and `requestAnimationFrame`
are not called, no frame callback is pending afterwards that was not before,
the fields of the `App` are untouched and the exception does not leave
`activateXR`. -/
theorem activateXR_denied_falls_back (env : Env) (w : World) (e : JsError)
    (h : env.sessionRejection "immersive-ar" = some e) :
    ((activateXR env).run w).1 = Except.ok ()
      ∧ callsSince w (afterActivation env w)
          = [Call.enter "activateXR", Call.requestSession "immersive-ar",
             Call.enter "onNoXRDevice", Call.classListAdd "unsupported"]
      ∧ (callsSince w (afterActivation env w)).countP (Call.isEnter "onNoXRDevice") = 1
      ∧ (callsSince w (afterActivation env w)).countP Call.isRequestSession = 1
      ∧ (callsSince w (afterActivation env w)).countP (Call.isEnter "createXRCanvas") = 0
      ∧ (callsSince w (afterActivation env w)).countP Call.isSurfaceCreation = 0
      ∧ (callsSince w (afterActivation env w)).countP Call.isUpdateRenderState = 0
      ∧ (callsSince w (afterActivation env w)).countP Call.isRequestAnimationFrame = 0
      ∧ (afterActivation env w).scheduled = w.scheduled
      ∧ (afterActivation env w).app = w.app
      ∧ (afterActivation env w).bodyClasses = tokenListAdd "unsupported" w.bodyClasses := by
  unfold afterActivation
  rw [activateXR_denied_run env w e h]
  simp [Call.isEnter, Call.isRequestSession, Call.isSurfaceCreation, Call.isUpdateRenderState,
    Call.isRequestAnimationFrame]

/-- The witness of C5: the platform refuses the session in a loaded page. -/
theorem activateXR_denied_falls_back_witness :
    denyingEnv.sessionRejection "immersive-ar" = some (JsError.domException "NotSupportedError")
      ∧ callsSince loadedWorld (afterActivation denyingEnv loadedWorld)
          = [Call.enter "activateXR", Call.requestSession "immersive-ar",
             Call.enter "onNoXRDevice", Call.classListAdd "unsupported"]
      ∧ (afterActivation denyingEnv loadedWorld).scheduled = loadedWorld.scheduled :=
  ⟨rfl,
    (activateXR_denied_falls_back denyingEnv loadedWorld
      (JsError.domException "NotSupportedError") rfl).2.1,
    (activateXR_denied_falls_back denyingEnv loadedWorld
      (JsError.domException "NotSupportedError") rfl).2.2.2.2.2.2.2.2.1⟩

/-- A run of `activateXR` with nothing delivered between its pieces, whatever
the platform answers: `createXRCanvas` is entered once when a session was
acquired and not at all otherwise; `updateRenderState` and
`requestAnimationFrame` are each called at most once, and `updateRenderState`
exactly once when the context was created; and if a frame callback is
registered on a session, then `updateRenderState` was called on that same
session before the first `requestAnimationFrame` call, and the session held by
the `App` carries that layer as its base layer. When the platform grants
everything the callback is registered. -/
theorem uninterrupted_run_binds_first (env : Env) (w : World) :
    (callsSince w (afterActivation env w)).countP (Call.isEnter "createXRCanvas")
        = (if (env.sessionRejection "immersive-ar").isNone then 1 else 0)
      ∧ (callsSince w (afterActivation env w)).countP Call.isUpdateRenderState ≤ 1
      ∧ (callsSince w (afterActivation env w)).countP Call.isRequestAnimationFrame ≤ 1
      ∧ (env.sessionRejection "immersive-ar" = none → env.contextCreated = true →
          (callsSince w (afterActivation env w)).countP Call.isUpdateRenderState = 1)
      ∧ (∀ session callback,
          Call.requestAnimationFrame session callback ∈ callsSince w (afterActivation env w) →
          ∃ layer,
            Call.updateRenderState session layer
                ∈ (callsSince w (afterActivation env w)).takeWhile
                    (fun c => !c.isRequestAnimationFrame)
              ∧ ∃ held, (afterActivation env w).app.xrSession = some held
                  ∧ held.handle = session ∧ held.renderState.baseLayer = some layer)
      ∧ (env.sessionRejection "immersive-ar" = none → env.contextCreated = true →
          env.renderStateRejection = none → env.referenceSpaceRejection "local" = none →
          (callsSince w (afterActivation env w)).countP Call.isRequestAnimationFrame = 1) := by
  cases h1 : env.sessionRejection "immersive-ar" with
  | some e =>
    have hrun := activateXR_denied_run env w e h1
    simp [afterActivation, hrun, Call.isEnter, Call.isUpdateRenderState,
      Call.isRequestAnimationFrame]
  | none =>
    cases h2 : env.contextCreated with
    | false =>
      have htrace := activateXR_no_context_trace env w h1 h2
      simp [callsSince, htrace, Call.isEnter, Call.isUpdateRenderState,
        Call.isRequestAnimationFrame]
    | true =>
      cases h3 : env.renderStateRejection with
      | some e =>
        have htrace := activateXR_unbound_trace env w e h1 h2 h3
        simp [callsSince, htrace, Call.isEnter, Call.isUpdateRenderState,
          Call.isRequestAnimationFrame]
      | none =>
        cases h4 : env.referenceSpaceRejection "local" with
        | some e =>
          have htrace := activateXR_no_space_trace env w e h1 h2 h3 h4
          simp [callsSince, htrace, Call.isEnter, Call.isUpdateRenderState,
            Call.isRequestAnimationFrame]
        | none =>
          have hrun := activateXR_granted_run env w h1 h2 h3 h4
          simp [afterActivation, hrun, Call.isEnter, Call.isUpdateRenderState,
            Call.isRequestAnimationFrame]

/-- C8 fails on the code. Two clicks on the entry element, each granted by the
platform: the second activation requests and acquires a second session
(handle 3, the first being 0), binds a second surface and registers a second
frame callback while the callback of the first session is still pending. -/
theorem second_activation_acquires_second_session :
    (callsSince loadedWorld
        (runEvents [PlatformEvent.click grantingEnv, PlatformEvent.click grantingEnv]
          loadedWorld)).countP Call.isRequestSession = 2
      ∧ (callsSince loadedWorld
        (runEvents [PlatformEvent.click grantingEnv, PlatformEvent.click grantingEnv]
          loadedWorld)).countP Call.isUpdateRenderState = 2
      ∧ (callsSince loadedWorld
        (runEvents [PlatformEvent.click grantingEnv, PlatformEvent.click grantingEnv]
          loadedWorld)).countP Call.isRequestAnimationFrame = 2
      ∧ (runEvents [PlatformEvent.click grantingEnv, PlatformEvent.click grantingEnv]
          loadedWorld).scheduled = [0, 3]
      ∧ ((runEvents [PlatformEvent.click grantingEnv] loadedWorld).app.xrSession.map
          fun session => session.handle) = some 0
      ∧ ((runEvents [PlatformEvent.click grantingEnv, PlatformEvent.click grantingEnv]
          loadedWorld).app.xrSession.map fun session => session.handle) = some 3 :=
  ⟨rfl, rfl, rfl, rfl, rfl, rfl⟩

/-- The frame callback assigns no field of the `App`: the session, the canvas,
the GL context, the reference space and the scene it holds afterwards are the
ones it held before, whether the callback returns or throws. -/
theorem onXRFrame_keeps_fields (time : Nat) (frame : XRFrame) (w : World) :
    (afterFrame time frame w).app.xrSession = w.app.xrSession
      ∧ (afterFrame time frame w).app.canvas = w.app.canvas
      ∧ (afterFrame time frame w).app.gl = w.app.gl
      ∧ (afterFrame time frame w).app.localReferenceSpace = w.app.localReferenceSpace
      ∧ (afterFrame time frame w).app.scene = w.app.scene := by
  unfold afterFrame
  simp only [onXRFrame, run_bind, run_getApp, resume_ok]
  cases hx : w.app.xrSession with
  | none => simp [hx]
  | some session =>
    cases hb : session.renderState.baseLayer with
    | none => simp [hx, hb]
    | some baseLayer =>
      cases hg : w.app.gl with
      | none => simp [hx, hb, hg]
      | some gl =>
        cases hr : w.app.renderer with
        | none => simp [hx, hb, hg, hr]
        | some renderer =>
          by_cases hm : "SetFramebuffer" ∈ renderer.methods
          · cases hs : w.app.localReferenceSpace with
            | none => simp [hx, hb, hg, hr, hm, hs]
            | some space =>
              cases hp : frame.getViewerPose space with
              | none => simp [hx, hb, hg, hr, hm, hs, hp]
              | some pose =>
                cases hv : pose.views.head? with
                | none => simp [hx, hb, hg, hr, hm, hs, hp, hv]
                | some view =>
                  by_cases hz : "setSize" ∈ renderer.methods
                  · cases hc : w.app.camera with
                    | none =>
                      simp [hx, hb, hg, hr, hm, hs, hp, hv, hz, hc, updateRenderer, updateCamera]
                    | some camera =>
                      by_cases hd : "render" ∈ renderer.methods
                      · simp [hx, hb, hg, hr, hm, hs, hp, hv, hz, hc, hd, updateRenderer,
                          updateCamera]
                      · simp [hx, hb, hg, hr, hm, hs, hp, hv, hz, hc, hd, updateRenderer,
                          updateCamera]
                  · simp [hx, hb, hg, hr, hm, hs, hp, hv, hz]
          · simp [hx, hb, hg, hr, hm]

/-- The startup function touches neither the `App` nor the pending frame
callbacks, whatever the browser and the page are. -/
theorem startup_keeps_app (nav : Navigator) (doc : Document) (w : World) :
    (afterStartup nav doc w).app = w.app ∧ (afterStartup nav doc w).scheduled = w.scheduled := by
  unfold afterStartup
  cases hxr : nav.xr with
  | none => simp [startup, isArSupported, onNoXRDevice, hxr]
  | some xr =>
    cases hq : xr.isSessionSupported with
    | none => simp [startup, isArSupported, onNoXRDevice, hxr, hq]
    | some query =>
      cases ha : query "immersive-ar" with
      | error e => simp [startup, isArSupported, hxr, hq, ha]
      | ok supported =>
        cases supported with
        | false => simp [startup, isArSupported, onNoXRDevice, hxr, hq, ha]
        | true =>
          by_cases hdoc : "enter-ar" ∈ doc.elementIds
          · simp [startup, isArSupported, getElementById, hxr, hq, ha, hdoc]
          · simp [startup, isArSupported, getElementById, hxr, hq, ha, hdoc]

/-- Without a session in `this.xrSession` the frame callback throws at its
first line and changes nothing. -/
theorem onXRFrame_no_session (time : Nat) (frame : XRFrame) (w : World)
    (h : w.app.xrSession = none) : afterFrame time frame w = w := by
  simp [afterFrame, onXRFrame, h]

/-- The frame callback keeps `FramesHaveSession`. -/
theorem onXRFrame_keeps_session (time : Nat) (frame : XRFrame) (w : World)
    (h : FramesHaveSession w) : FramesHaveSession (afterFrame time frame w) := by
  cases hx : w.app.xrSession with
  | none => rw [onXRFrame_no_session time frame w hx]; exact h
  | some session =>
    left
    rw [(onXRFrame_keeps_fields time frame w).1, hx]
    rfl

/-- A run of `activateXR` either leaves a session in `this.xrSession` or
leaves the session field and the pending frame callbacks as they were. -/
theorem activateXR_session_kept (env : Env) (w : World) :
    (afterActivation env w).app.xrSession.isSome = true
      ∨ ((afterActivation env w).app.xrSession = w.app.xrSession
          ∧ (afterActivation env w).scheduled = w.scheduled) := by
  cases h1 : env.sessionRejection "immersive-ar" with
  | some e =>
    right
    simp [afterActivation, activateXR_denied_run env w e h1]
  | none =>
    left
    cases h2 : env.contextCreated with
    | false =>
      simp [afterActivation, activateXR, run_tryCatchJs, requestSession, createXRCanvas,
        createElement, getContext, newXRWebGLLayer, onNoXRDevice, h1, h2]
    | true =>
      cases h3 : env.renderStateRejection with
      | some e =>
        simp [afterActivation, activateXR, run_tryCatchJs, requestSession, createXRCanvas,
          createElement, getContext, newXRWebGLLayer, updateRenderState, onNoXRDevice,
          h1, h2, h3]
      | none =>
        cases h4 : env.referenceSpaceRejection "local" with
        | some e =>
          simp [afterActivation, activateXR, run_tryCatchJs, requestSession, createXRCanvas,
            onSessionStarted, setupThreeJS, createElement, getContext, newXRWebGLLayer,
            updateRenderState, requestReferenceSpace, updateRenderer, updateCamera,
            onNoXRDevice, h1, h2, h3, h4]
        | none => simp [afterActivation, activateXR_granted_run env w h1 h2 h3 h4]

/-- A run of `activateXR` keeps `FramesHaveSession`. -/
theorem activateXR_keeps_session (env : Env) (w : World) (h : FramesHaveSession w) :
    FramesHaveSession (afterActivation env w) := by
  rcases activateXR_session_kept env w with hs | ⟨hx, hsched⟩
  · exact Or.inl hs
  · rcases h with h | h
    · exact Or.inl (by rw [hx]; exact h)
    · exact Or.inr (by rw [hsched]; exact h)

/-- Running a step for each entry of a list keeps what the step keeps. -/
theorem foldl_keeps {α : Type} (step : World → World) (keep : World → Prop)
    (hstep : ∀ w, keep w → keep (step w)) (l : List α) (w : World) (h : keep w) :
    keep (l.foldl (fun w1 _ => step w1) w) := by
  induction l generalizing w with
  | nil => exact h
  | cons _ rest ih => exact ih (step w) (hstep w h)

/-- Every platform event keeps `FramesHaveSession`. -/
theorem dispatch_keeps_session (event : PlatformEvent) (w : World) (h : FramesHaveSession w) :
    FramesHaveSession (dispatch event w) := by
  cases event with
  | click env =>
    exact foldl_keeps (afterActivation env) FramesHaveSession
      (activateXR_keeps_session env) _ w h
  | frame session time frame =>
    refine foldl_keeps (afterFrame time frame) FramesHaveSession
      (onXRFrame_keeps_session time frame) _ _ ?_
    rcases h with h | h
    · exact Or.inl h
    · exact Or.inr (by simp [h])
  | sessionEnd session =>
    rcases h with h | h
    · exact Or.inl h
    · exact Or.inr (by simp [dispatch, h])

/-- In every world the program can reach, from the loading of the script
through any sequence of clicks, frames and session ends, under any behaviour
of the browser, the page and the platform: whenever a frame callback is
pending, `this.xrSession` holds a session. So the frame callback is only ever
invoked with a session in `this.xrSession`. -/
theorem reachable_frames_have_session (nav : Navigator) (doc : Document)
    (events : List PlatformEvent) :
    FramesHaveSession (runEvents events (afterStartup nav doc World.empty)) := by
  have hstart : FramesHaveSession (afterStartup nav doc World.empty) := by
    right
    rw [(startup_keeps_app nav doc World.empty).2]
    rfl
  unfold runEvents
  generalize afterStartup nav doc World.empty = w at hstart
  induction events generalizing w with
  | nil => exact hstart
  | cons event rest ih => exact ih (dispatch event w) (dispatch_keeps_session event w hstart)

/-- C9 fails on the code. After the active session has ended, and also after
a frame on which the callback threw, the `App` still holds the canvas, the GL
context, the reference space and the session it held while active. -/
theorem session_end_keeps_resources :
    (dispatch (PlatformEvent.sessionEnd 0) activeWorld).app.canvas = some 1
      ∧ (dispatch (PlatformEvent.sessionEnd 0) activeWorld).app.gl = some 2
      ∧ (dispatch (PlatformEvent.sessionEnd 0) activeWorld).app.localReferenceSpace
          = some { kind := "local", session := 0 }
      ∧ ((dispatch (PlatformEvent.sessionEnd 0) activeWorld).app.xrSession.map
          fun session => session.handle) = some 0
      ∧ ((onXRFrame 0 posedFrame).run activeWorld).1
          = Except.error (JsError.typeError "this.renderer.SetFramebuffer is not a function")
      ∧ (runEvents [PlatformEvent.frame 0 0 posedFrame, PlatformEvent.sessionEnd 0]
          activeWorld).app.canvas = some 1
      ∧ (runEvents [PlatformEvent.frame 0 0 posedFrame, PlatformEvent.sessionEnd 0]
          activeWorld).app.gl = some 2
      ∧ (runEvents [PlatformEvent.frame 0 0 posedFrame, PlatformEvent.sessionEnd 0]
          activeWorld).app.localReferenceSpace = some { kind := "local", session := 0 }
      ∧ ((runEvents [PlatformEvent.frame 0 0 posedFrame, PlatformEvent.sessionEnd 0]
          activeWorld).app.xrSession.map fun session => session.handle) = some 0 :=
  ⟨rfl, rfl, rfl, rfl, rfl, rfl, rfl, rfl, rfl⟩

/-- C9 as amended. The program has no teardown. When a session ends no code
of the program runs: no call is made, and every field of the `App` (canvas, GL
context, reference space, session) is what it was. A frame callback, whether
it returns or throws, leaves the session, the canvas, the GL context and the
reference space of the `App` as they were. -/
theorem session_end_releases_nothing (session : Nat) (time : Nat) (frame : XRFrame)
    (w : World) :
    (dispatch (PlatformEvent.sessionEnd session) w).app = w.app
      ∧ (dispatch (PlatformEvent.sessionEnd session) w).trace = w.trace
      ∧ (dispatch (PlatformEvent.sessionEnd session) w).bodyClasses = w.bodyClasses
      ∧ (afterFrame time frame w).app.xrSession = w.app.xrSession
      ∧ (afterFrame time frame w).app.canvas = w.app.canvas
      ∧ (afterFrame time frame w).app.gl = w.app.gl
      ∧ (afterFrame time frame w).app.localReferenceSpace = w.app.localReferenceSpace := by
  obtain ⟨hx, hc, hg, hs, _⟩ := onXRFrame_keeps_fields time frame w
  exact ⟨rfl, rfl, rfl, hx, hc, hg, hs⟩

/-! ## The startup capability probe -/

/-- C7. For each outcome of the startup probe exactly one of the two happens.
When `navigator.xr` is missing, when `isSessionSupported` is missing, and when
`isSessionSupported('immersive-ar')` answers false, the fallback
`onNoXRDevice` is invoked exactly once and no listener is attached. When it
answers true, `activateXR` is attached, once, as the click listener of the
`enter-ar` element of the page, and the fallback is not invoked. -/
theorem startup_probe_exactly_one (nav : Navigator) (doc : Document) (w : World) :
    (nav.xr = none →
        (callsSince w (afterStartup nav doc w)).countP (Call.isEnter "onNoXRDevice") = 1
          ∧ (callsSince w (afterStartup nav doc w)).countP Call.isAddEventListener = 0
          ∧ (afterStartup nav doc w).listeners = w.listeners
          ∧ (afterStartup nav doc w).bodyClasses = tokenListAdd "unsupported" w.bodyClasses)
      ∧ (∀ xr, nav.xr = some xr → xr.isSessionSupported = none →
        (callsSince w (afterStartup nav doc w)).countP (Call.isEnter "onNoXRDevice") = 1
          ∧ (callsSince w (afterStartup nav doc w)).countP Call.isAddEventListener = 0
          ∧ (afterStartup nav doc w).listeners = w.listeners
          ∧ (afterStartup nav doc w).bodyClasses = tokenListAdd "unsupported" w.bodyClasses)
      ∧ (∀ xr query, nav.xr = some xr → xr.isSessionSupported = some query →
        query "immersive-ar" = Except.ok false →
        (callsSince w (afterStartup nav doc w)).countP (Call.isEnter "onNoXRDevice") = 1
          ∧ (callsSince w (afterStartup nav doc w)).countP Call.isAddEventListener = 0
          ∧ (afterStartup nav doc w).listeners = w.listeners
          ∧ (afterStartup nav doc w).bodyClasses = tokenListAdd "unsupported" w.bodyClasses)
      ∧ (∀ xr query, nav.xr = some xr → xr.isSessionSupported = some query →
        query "immersive-ar" = Except.ok true → "enter-ar" ∈ doc.elementIds →
        (callsSince w (afterStartup nav doc w)).countP (Call.isEnter "onNoXRDevice") = 0
          ∧ (callsSince w (afterStartup nav doc w)).countP Call.isAddEventListener = 1
          ∧ (afterStartup nav doc w).listeners
              = w.listeners ++ [("enter-ar", "click", "activateXR")]
          ∧ (afterStartup nav doc w).bodyClasses = w.bodyClasses) := by
  refine ⟨?_, ?_, ?_, ?_⟩
  · intro hxr
    simp [afterStartup, startup, isArSupported, onNoXRDevice, hxr, Call.isEnter,
      Call.isAddEventListener]
  · intro xr hxr hq
    simp [afterStartup, startup, isArSupported, onNoXRDevice, hxr, hq, Call.isEnter,
      Call.isAddEventListener]
  · intro xr query hxr hq ha
    simp [afterStartup, startup, isArSupported, onNoXRDevice, hxr, hq, ha, Call.isEnter,
      Call.isAddEventListener]
  · intro xr query hxr hq ha hdoc
    simp [afterStartup, startup, isArSupported, getElementById, hxr, hq, ha, hdoc, Call.isEnter,
      Call.isAddEventListener]

/-- The witness of C7: a supporting browser and a page with the entry
element. -/
theorem startup_probe_exactly_one_witness :
    "enter-ar" ∈ page.elementIds
      ∧ (callsSince World.empty (afterStartup supportingNavigator page World.empty)).countP
          (Call.isEnter "onNoXRDevice") = 0
      ∧ (callsSince World.empty (afterStartup supportingNavigator page World.empty)).countP
          Call.isAddEventListener = 1
      ∧ (afterStartup supportingNavigator page World.empty).listeners
          = World.empty.listeners ++ [("enter-ar", "click", "activateXR")]
      ∧ (afterStartup supportingNavigator page World.empty).bodyClasses
          = World.empty.bodyClasses :=
  ⟨by decide,
    (startup_probe_exactly_one supportingNavigator page World.empty).2.2.2
      { isSessionSupported := some fun _ => Except.ok true } (fun _ => Except.ok true)
      rfl rfl rfl (by decide)⟩

/-! ## Activation with its suspension points -/

/-- The first piece of `activateXR`: in whatever world, one session request. -/
theorem activateXR_request_run (w : World) :
    activateXR_request.run w
      = (Except.ok (),
          { w with trace := w.trace
              ++ [Call.enter "activateXR", Call.requestSession "immersive-ar"] }) := by
  simp [activateXR_request]

/-- The second piece when the session request is rejected. -/
theorem sessionSettled_denied_run (env : Env) (w : World) (e : JsError)
    (h1 : env.sessionRejection "immersive-ar" = some e) :
    (activateXR_sessionSettled env).run w
      = (Except.ok none,
          { w with
            bodyClasses := tokenListAdd "unsupported" w.bodyClasses,
            trace := w.trace ++ [Call.enter "onNoXRDevice", Call.classListAdd "unsupported"] }) := by
  simp [activateXR_sessionSettled, run_tryCatchJs, onNoXRDevice, h1]

/-- The second piece when the session is granted and `getContext` returns
`null`: the session is stored, unbound, and the run is over. -/
theorem sessionSettled_no_context_run (env : Env) (w : World)
    (h1 : env.sessionRejection "immersive-ar" = none) (h2 : env.contextCreated = false) :
    ((activateXR_sessionSettled env).run w).1 = Except.ok none
      ∧ ((activateXR_sessionSettled env).run w).2.trace
          = w.trace ++
            [Call.enter "createXRCanvas", Call.createElement "canvas",
             Call.appendChild (w.nextHandle + 1),
             Call.getContext (w.nextHandle + 1) "webgl" true,
             Call.newXRWebGLLayer w.nextHandle none,
             Call.enter "onNoXRDevice", Call.classListAdd "unsupported"]
      ∧ ((activateXR_sessionSettled env).run w).2.app.xrSession
          = some { handle := w.nextHandle, renderState := { baseLayer := none } }
      ∧ ((activateXR_sessionSettled env).run w).2.scheduled = w.scheduled
      ∧ ((activateXR_sessionSettled env).run w).2.listeners = w.listeners := by
  simp [activateXR_sessionSettled, run_tryCatchJs, createXRCanvas, createElement, getContext,
    newXRWebGLLayer, onNoXRDevice, h1, h2]

/-- The second piece when `updateRenderState` throws: the session is stored,
unbound, and the run is over. -/
theorem sessionSettled_unbound_run (env : Env) (w : World) (e : JsError)
    (h1 : env.sessionRejection "immersive-ar" = none) (h2 : env.contextCreated = true)
    (h3 : env.renderStateRejection = some e) :
    ((activateXR_sessionSettled env).run w).1 = Except.ok none
      ∧ ((activateXR_sessionSettled env).run w).2.trace
          = w.trace ++
            [Call.enter "createXRCanvas", Call.createElement "canvas",
             Call.appendChild (w.nextHandle + 1),
             Call.getContext (w.nextHandle + 1) "webgl" true,
             Call.newXRWebGLLayer w.nextHandle (some (w.nextHandle + 1 + 1)),
             Call.updateRenderState w.nextHandle
               { session := w.nextHandle, context := w.nextHandle + 1 + 1,
                 framebuffer := env.framebuffer w.nextHandle, getViewport := env.getViewport },
             Call.enter "onNoXRDevice", Call.classListAdd "unsupported"]
      ∧ ((activateXR_sessionSettled env).run w).2.app.xrSession
          = some { handle := w.nextHandle, renderState := { baseLayer := none } }
      ∧ ((activateXR_sessionSettled env).run w).2.scheduled = w.scheduled
      ∧ ((activateXR_sessionSettled env).run w).2.listeners = w.listeners := by
  simp [activateXR_sessionSettled, run_tryCatchJs, createXRCanvas, createElement, getContext,
    newXRWebGLLayer, updateRenderState, onNoXRDevice, h1, h2, h3]

/-- The second piece when the session is granted and its surface bound: the
session is stored with its base layer, the three.js objects are built, the
reference space is requested on that session and the run is suspended. -/
theorem sessionSettled_bound_run (env : Env) (w : World)
    (h1 : env.sessionRejection "immersive-ar" = none) (h2 : env.contextCreated = true)
    (h3 : env.renderStateRejection = none) :
    ((activateXR_sessionSettled env).run w).1 = Except.ok (some w.nextHandle)
      ∧ ((activateXR_sessionSettled env).run w).2.trace
          = w.trace ++
            [Call.enter "createXRCanvas", Call.createElement "canvas",
             Call.appendChild (w.nextHandle + 1),
             Call.getContext (w.nextHandle + 1) "webgl" true,
             Call.newXRWebGLLayer w.nextHandle (some (w.nextHandle + 1 + 1)),
             Call.updateRenderState w.nextHandle
               { session := w.nextHandle, context := w.nextHandle + 1 + 1,
                 framebuffer := env.framebuffer w.nextHandle, getViewport := env.getViewport },
             Call.enter "onSessionStarted", Call.classListAdd "ar", Call.enter "setupThreeJS",
             Call.newWebGLRenderer (some (w.nextHandle + 1)) (some (w.nextHandle + 1 + 1)),
             Call.createCubeScene, Call.newPerspectiveCamera,
             Call.requestReferenceSpace w.nextHandle "local"]
      ∧ ((activateXR_sessionSettled env).run w).2.app.xrSession
          = some
              { handle := w.nextHandle,
                renderState :=
                  { baseLayer := some
                      { session := w.nextHandle, context := w.nextHandle + 1 + 1,
                        framebuffer := env.framebuffer w.nextHandle,
                        getViewport := env.getViewport } } }
      ∧ ((activateXR_sessionSettled env).run w).2.scheduled = w.scheduled
      ∧ ((activateXR_sessionSettled env).run w).2.listeners = w.listeners := by
  simp [activateXR_sessionSettled, run_tryCatchJs, createXRCanvas, onSessionStarted_request,
    setupThreeJS, createElement, getContext, newXRWebGLLayer, updateRenderState,
    updateRenderer, updateCamera, h1, h2, h3]

/-- The third piece when the reference space is refused. -/
theorem spaceSettled_denied_run (env : Env) (requestedOn : Nat) (w : World) (e : JsError)
    (h4 : env.referenceSpaceRejection "local" = some e) :
    (activateXR_spaceSettled env requestedOn).run w
      = (Except.ok (),
          { w with
            bodyClasses := tokenListAdd "unsupported" w.bodyClasses,
            trace := w.trace ++ [Call.enter "onNoXRDevice", Call.classListAdd "unsupported"] }) := by
  simp [activateXR_spaceSettled, run_tryCatchJs, onSessionStarted_resume, onNoXRDevice, h4]

/-- The third piece when the reference space is granted: it is stored and one
frame callback is registered, on the session `this.xrSession` holds at that
moment. -/
theorem spaceSettled_granted_run (env : Env) (requestedOn : Nat) (w : World)
    (held : XRSession) (h4 : env.referenceSpaceRejection "local" = none)
    (hx : w.app.xrSession = some held) :
    (activateXR_spaceSettled env requestedOn).run w
      = (Except.ok (),
          { w with
            app := { w.app with
                     localReferenceSpace := some { kind := "local", session := requestedOn } },
            scheduled := w.scheduled ++ [held.handle],
            trace := w.trace ++ [Call.requestAnimationFrame held.handle "onXRFrame"] }) := by
  simp [activateXR_spaceSettled, run_tryCatchJs, onSessionStarted_resume, h4, hx]

/-- The third piece when the reference space is granted and `this.xrSession`
holds nothing: line 65 throws and the `catch` runs. -/
theorem spaceSettled_no_session_run (env : Env) (requestedOn : Nat) (w : World)
    (h4 : env.referenceSpaceRejection "local" = none) (hx : w.app.xrSession = none) :
    ((activateXR_spaceSettled env requestedOn).run w).2.trace
        = w.trace ++ [Call.enter "onNoXRDevice", Call.classListAdd "unsupported"]
      ∧ ((activateXR_spaceSettled env requestedOn).run w).2.scheduled = w.scheduled := by
  simp [activateXR_spaceSettled, run_tryCatchJs, onSessionStarted_resume, onNoXRDevice, h4, hx]

/-- The three pieces of `activateXR`, run with nothing delivered in between,
are the run of `activateXR` from its first line to its last. -/
theorem deliver_uninterrupted (env : Env) (w : World)
    (h : (w.listeners.filter fun l => l == ("enter-ar", "click", "activateXR"))
      = [("enter-ar", "click", "activateXR")]) :
    (deliverAll [AsyncEvent.click, AsyncEvent.sessionSettled env, AsyncEvent.spaceSettled 0 env]
        { world := w, awaitingSession := 0, awaitingSpace := [] }).world
      = dispatch (PlatformEvent.click env) w := by
  simp only [deliverAll, List.foldl, deliver, dispatch, h, List.length_singleton]
  cases h1 : env.sessionRejection "immersive-ar" with
  | some e =>
    simp [suspendedOn, activateXR_request, activateXR_sessionSettled, activateXR, run_tryCatchJs,
      requestSession, onNoXRDevice, h1]
  | none =>
    cases h2 : env.contextCreated with
    | false =>
      simp [suspendedOn, activateXR_request, activateXR_sessionSettled, activateXR, run_tryCatchJs,
        requestSession, createXRCanvas, createElement, getContext, newXRWebGLLayer,
        onNoXRDevice, h1, h2]
    | true =>
      cases h3 : env.renderStateRejection with
      | some e =>
        simp [suspendedOn, activateXR_request, activateXR_sessionSettled, activateXR, run_tryCatchJs,
          requestSession, createXRCanvas, createElement, getContext, newXRWebGLLayer,
          updateRenderState, onNoXRDevice, h1, h2, h3]
      | none =>
        cases h4 : env.referenceSpaceRejection "local" with
        | some e =>
          simp [suspendedOn, activateXR_request, activateXR_sessionSettled, activateXR_spaceSettled,
            activateXR, run_tryCatchJs, requestSession, createXRCanvas, onSessionStarted,
            onSessionStarted_request, onSessionStarted_resume, setupThreeJS, createElement,
            getContext, newXRWebGLLayer, updateRenderState, requestReferenceSpace,
            updateRenderer, updateCamera, onNoXRDevice, h1, h2, h3, h4]
        | none =>
          simp [suspendedOn, activateXR_request, activateXR_sessionSettled, activateXR_spaceSettled,
            activateXR, run_tryCatchJs, requestSession, createXRCanvas, onSessionStarted,
            onSessionStarted_request, onSessionStarted_resume, setupThreeJS, createElement,
            getContext, newXRWebGLLayer, updateRenderState, requestReferenceSpace,
            updateRenderer, updateCamera, h1, h2, h3, h4]

/-- The frame callback only adds calls to the trace. -/
theorem onXRFrame_appends (time : Nat) (frame : XRFrame) (w : World) :
    w.trace <+: (afterFrame time frame w).trace := by
  unfold afterFrame
  simp only [onXRFrame, run_bind, run_getApp, resume_ok]
  cases hx : w.app.xrSession with
  | none => simp [hx]
  | some session =>
    cases hb : session.renderState.baseLayer with
    | none => simp [hx, hb]
    | some baseLayer =>
      cases hg : w.app.gl with
      | none => simp [hx, hb, hg]
      | some gl =>
        cases hr : w.app.renderer with
        | none => simp [hx, hb, hg, hr]
        | some renderer =>
          by_cases hm : "SetFramebuffer" ∈ renderer.methods
          · cases hs : w.app.localReferenceSpace with
            | none => simp [hx, hb, hg, hr, hm, hs]
            | some space =>
              cases hp : frame.getViewerPose space with
              | none => simp [hx, hb, hg, hr, hm, hs, hp]
              | some pose =>
                cases hv : pose.views.head? with
                | none => simp [hx, hb, hg, hr, hm, hs, hp, hv]
                | some view =>
                  by_cases hz : "setSize" ∈ renderer.methods
                  · cases hc : w.app.camera with
                    | none =>
                      simp [hx, hb, hg, hr, hm, hs, hp, hv, hz, hc, updateRenderer, updateCamera]
                    | some camera =>
                      by_cases hd : "render" ∈ renderer.methods
                      · simp [hx, hb, hg, hr, hm, hs, hp, hv, hz, hc, hd, updateRenderer,
                          updateCamera]
                      · simp [hx, hb, hg, hr, hm, hs, hp, hv, hz, hc, hd, updateRenderer,
                          updateCamera]
                  · simp [hx, hb, hg, hr, hm, hs, hp, hv, hz]
          · simp [hx, hb, hg, hr, hm]

/-- The second piece of `activateXR` only adds calls to the trace. -/
theorem sessionSettled_appends (env : Env) (w : World) :
    w.trace <+: ((activateXR_sessionSettled env).run w).2.trace := by
  cases h1 : env.sessionRejection "immersive-ar" with
  | some e => simp [sessionSettled_denied_run env w e h1]
  | none =>
    cases h2 : env.contextCreated with
    | false => simp [(sessionSettled_no_context_run env w h1 h2).2.1]
    | true =>
      cases h3 : env.renderStateRejection with
      | some e => simp [(sessionSettled_unbound_run env w e h1 h2 h3).2.1]
      | none => simp [(sessionSettled_bound_run env w h1 h2 h3).2.1]

/-- The third piece of `activateXR` only adds calls to the trace. -/
theorem spaceSettled_appends (env : Env) (requestedOn : Nat) (w : World) :
    w.trace <+: ((activateXR_spaceSettled env requestedOn).run w).2.trace := by
  cases h4 : env.referenceSpaceRejection "local" with
  | some e => simp [spaceSettled_denied_run env requestedOn w e h4]
  | none =>
    cases hx : w.app.xrSession with
    | none => simp [(spaceSettled_no_session_run env requestedOn w h4 hx).1]
    | some held => simp [spaceSettled_granted_run env requestedOn w held h4 hx]

/-- Every event only adds calls to the trace. -/
theorem deliver_appends (event : AsyncEvent) (p : Page) :
    p.world.trace <+: (deliver event p).world.trace := by
  cases event with
  | click =>
    simp only [deliver]
    exact foldl_keeps (fun w1 => (activateXR_request.run w1).2)
      (fun w1 => p.world.trace <+: w1.trace)
      (fun w1 h => h.trans (by simp [activateXR_request_run])) _ p.world (List.prefix_refl _)
  | sessionSettled env =>
    simp only [deliver]
    split
    · exact List.prefix_refl _
    · exact sessionSettled_appends env p.world
  | spaceSettled run env =>
    simp only [deliver]
    split
    · exact List.prefix_refl _
    · exact spaceSettled_appends env _ p.world
  | frame session time frame =>
    simp only [deliver, dispatch]
    exact foldl_keeps (afterFrame time frame) (fun w1 => p.world.trace <+: w1.trace)
      (fun w1 h => h.trans (onXRFrame_appends time frame w1)) _ _ (List.prefix_refl _)
  | sessionEnd session =>
    simp only [deliver, dispatch]
    exact List.prefix_refl _

/-- Every event keeps `Page.RunsBound`: a run is added to those that wait for
a reference space only in the step in which it called `updateRenderState`. -/
theorem deliver_keeps_bound (event : AsyncEvent) (p : Page) (h : p.RunsBound) :
    (deliver event p).RunsBound := by
  have hold : ∀ s ∈ p.awaitingSpace,
      ∃ layer, Call.updateRenderState s layer ∈ (deliver event p).world.trace := by
    intro s hs
    obtain ⟨layer, hl⟩ := h s hs
    exact ⟨layer, (deliver_appends event p).subset hl⟩
  cases event with
  | click => exact fun s hs => hold s (by simpa [deliver] using hs)
  | frame session time frame => exact fun s hs => hold s (by simpa [deliver] using hs)
  | sessionEnd session => exact fun s hs => hold s (by simpa [deliver] using hs)
  | spaceSettled run env =>
    intro s hs
    refine hold s ?_
    simp only [deliver] at hs
    split at hs
    · exact hs
    · exact List.mem_of_mem_eraseIdx hs
  | sessionSettled env =>
    by_cases h0 : p.awaitingSession = 0
    · simpa [deliver, h0] using h
    · intro s hs
      simp only [deliver, h0, if_false, List.mem_append] at hs
      rcases hs with hs | hs
      · exact hold s hs
      · cases h1 : env.sessionRejection "immersive-ar" with
        | some e => simp [sessionSettled_denied_run env p.world e h1, suspendedOn] at hs
        | none =>
          cases h2 : env.contextCreated with
          | false =>
            simp [(sessionSettled_no_context_run env p.world h1 h2).1, suspendedOn] at hs
          | true =>
            cases h3 : env.renderStateRejection with
            | some e =>
              simp [(sessionSettled_unbound_run env p.world e h1 h2 h3).1, suspendedOn] at hs
            | none =>
              obtain ⟨hres, htrace, -⟩ := sessionSettled_bound_run env p.world h1 h2 h3
              simp only [hres, suspendedOn, List.mem_singleton] at hs
              subst hs
              refine ⟨{ session := p.world.nextHandle, context := p.world.nextHandle + 1 + 1,
                        framebuffer := env.framebuffer p.world.nextHandle,
                        getViewport := env.getViewport }, ?_⟩
              simp only [deliver, h0, if_false, htrace]
              simp

/-- In every page reached through any sequence of events, every run suspended
at the reference space request has called `updateRenderState` on the session
it requested the space on. -/
theorem deliverAll_keeps_bound (events : List AsyncEvent) (p : Page) (h : p.RunsBound) :
    (deliverAll events p).RunsBound := by
  unfold deliverAll
  induction events generalizing p with
  | nil => exact h
  | cons event rest ih => exact ih (deliver event p) (deliver_keeps_bound event p h)

/-- C6 fails on the code. First, a session the platform grants while
`getContext` returns `null` is acquired and stored, `createXRCanvas` is entered
once for it and `updateRenderState` is never called: it is bound zero times.
Second, with a first run suspended at line 63, a second click whose session
is granted and whose `getContext` returns `null` stores the unbound session 3;
when the first run goes on, line 65 registers its frame callback on session 3,
on which `updateRenderState` was never called. Third, the same happens through
the frame callback of an active session after such a second click. -/
theorem frame_callback_on_unbound_session :
    ((afterActivation noContextEnv loadedWorld).app.xrSession.map
        fun session => (session.handle, session.renderState.baseLayer.isSome)) = some (0, false)
      ∧ (callsSince loadedWorld (afterActivation noContextEnv loadedWorld)).countP
          (Call.isEnter "createXRCanvas") = 1
      ∧ (callsSince loadedWorld (afterActivation noContextEnv loadedWorld)).countP
          Call.isUpdateRenderState = 0
      ∧ (deliverAll overtakenActivation loadedPage).world.trace.countP
          Call.isRequestAnimationFrame = 1
      ∧ (deliverAll overtakenActivation loadedPage).world.trace.countP
          (Call.isRequestAnimationFrameOn 3) = 1
      ∧ (deliverAll overtakenActivation loadedPage).world.trace.countP
          (Call.isUpdateRenderStateOn 3) = 0
      ∧ ((deliverAll overtakenActivation loadedPage).world.app.xrSession.map
          fun session => (session.handle, session.renderState.baseLayer.isSome)) = some (3, false)
      ∧ (deliverAll overtakenActivation loadedPage).world.scheduled = [3]
      ∧ (runEvents
            [PlatformEvent.click grantingEnv, PlatformEvent.click noContextEnv,
             PlatformEvent.frame 0 0 posedFrame]
            loadedWorld).trace.countP (Call.isRequestAnimationFrameOn 3) = 1
      ∧ (runEvents
            [PlatformEvent.click grantingEnv, PlatformEvent.click noContextEnv,
             PlatformEvent.frame 0 0 posedFrame]
            loadedWorld).trace.countP (Call.isUpdateRenderStateOn 3) = 0 :=
  ⟨rfl, rfl, rfl, rfl, rfl, rfl, rfl, rfl, rfl, rfl⟩

/-- C6 as amended. With the `await`s of `activateXR` as suspension points and
whatever the platform answers and delivers in between:
the piece that stores an acquired session enters `createXRCanvas` once (not
at all when the session is refused), calls `updateRenderState` at most once and
only on the session it acquired, exactly once when the graphics context is
created, and registers no frame callback; the run is suspended at the
reference space request only after its `updateRenderState` call succeeded,
the session it holds then carrying the layer;
the piece that goes on from there binds nothing, calls
`requestAnimationFrame` at most once, and registers the callback on the
session `this.xrSession` holds at that moment;
in every page reached from one without suspended runs, each run suspended at
the reference space request has called `updateRenderState` on its session, so
the binding of a run precedes its `requestAnimationFrame` call;
and in a run with nothing delivered in between the callback is registered on
the session the run bound. -/
theorem run_binds_before_registering (env : Env) (w : World) (requestedOn : Nat)
    (awaiting : Nat) (events : List AsyncEvent) :
    ((callsSince w ((activateXR_sessionSettled env).run w).2).countP
          (Call.isEnter "createXRCanvas")
          = (if (env.sessionRejection "immersive-ar").isNone then 1 else 0)
        ∧ (callsSince w ((activateXR_sessionSettled env).run w).2).countP
            Call.isUpdateRenderState ≤ 1
        ∧ (callsSince w ((activateXR_sessionSettled env).run w).2).countP
            Call.isUpdateRenderState
          = (callsSince w ((activateXR_sessionSettled env).run w).2).countP
              (Call.isUpdateRenderStateOn w.nextHandle)
        ∧ (callsSince w ((activateXR_sessionSettled env).run w).2).countP
            Call.isRequestAnimationFrame = 0
        ∧ (env.sessionRejection "immersive-ar" = none → env.contextCreated = true →
            (callsSince w ((activateXR_sessionSettled env).run w).2).countP
              Call.isUpdateRenderState = 1)
        ∧ (∀ h, ((activateXR_sessionSettled env).run w).1 = Except.ok (some h) →
            h = w.nextHandle
              ∧ ∃ layer,
                  Call.updateRenderState h layer
                      ∈ callsSince w ((activateXR_sessionSettled env).run w).2
                    ∧ ((activateXR_sessionSettled env).run w).2.app.xrSession
                        = some { handle := h, renderState := { baseLayer := some layer } }))
      ∧ ((callsSince w ((activateXR_spaceSettled env requestedOn).run w).2).countP
            Call.isUpdateRenderState = 0
        ∧ (callsSince w ((activateXR_spaceSettled env requestedOn).run w).2).countP
            (Call.isEnter "createXRCanvas") = 0
        ∧ (callsSince w ((activateXR_spaceSettled env requestedOn).run w).2).countP
            Call.isRequestAnimationFrame ≤ 1
        ∧ (∀ session callback,
            Call.requestAnimationFrame session callback
                ∈ callsSince w ((activateXR_spaceSettled env requestedOn).run w).2 →
            ∃ held, w.app.xrSession = some held ∧ held.handle = session))
      ∧ (∀ h ∈ (deliverAll events
                  { world := w, awaitingSession := awaiting, awaitingSpace := [] }).awaitingSpace,
          ∃ layer,
            Call.updateRenderState h layer
              ∈ (deliverAll events
                  { world := w, awaitingSession := awaiting, awaitingSpace := [] }).world.trace)
      ∧ (∀ session callback,
          Call.requestAnimationFrame session callback ∈ callsSince w (afterActivation env w) →
          ∃ layer,
            Call.updateRenderState session layer
                ∈ (callsSince w (afterActivation env w)).takeWhile
                    (fun c => !c.isRequestAnimationFrame)
              ∧ ∃ held, (afterActivation env w).app.xrSession = some held
                  ∧ held.handle = session ∧ held.renderState.baseLayer = some layer) := by
  refine ⟨?_, ?_, ?_, (uninterrupted_run_binds_first env w).2.2.2.2.1⟩
  · cases h1 : env.sessionRejection "immersive-ar" with
    | some e =>
      simp [sessionSettled_denied_run env w e h1, Call.isEnter, Call.isUpdateRenderState,
        Call.isUpdateRenderStateOn, Call.isRequestAnimationFrame]
    | none =>
      cases h2 : env.contextCreated with
      | false =>
        obtain ⟨hres, htrace, hx, -⟩ := sessionSettled_no_context_run env w h1 h2
        simp [callsSince, hres, htrace, Call.isEnter, Call.isUpdateRenderState,
          Call.isUpdateRenderStateOn, Call.isRequestAnimationFrame]
      | true =>
        cases h3 : env.renderStateRejection with
        | some e =>
          obtain ⟨hres, htrace, hx, -⟩ := sessionSettled_unbound_run env w e h1 h2 h3
          simp [callsSince, hres, htrace, Call.isEnter, Call.isUpdateRenderState,
            Call.isUpdateRenderStateOn, Call.isRequestAnimationFrame]
        | none =>
          obtain ⟨hres, htrace, hx, -⟩ := sessionSettled_bound_run env w h1 h2 h3
          simp [callsSince, hres, htrace, hx, Call.isEnter, Call.isUpdateRenderState,
            Call.isUpdateRenderStateOn, Call.isRequestAnimationFrame]
  · cases h4 : env.referenceSpaceRejection "local" with
    | some e =>
      simp [spaceSettled_denied_run env requestedOn w e h4, Call.isEnter,
        Call.isUpdateRenderState, Call.isRequestAnimationFrame]
    | none =>
      cases hx : w.app.xrSession with
      | none =>
        obtain ⟨htrace, -⟩ := spaceSettled_no_session_run env requestedOn w h4 hx
        simp [callsSince, htrace, Call.isEnter, Call.isUpdateRenderState,
          Call.isRequestAnimationFrame]
      | some held =>
        simp [spaceSettled_granted_run env requestedOn w held h4 hx, Call.isEnter,
          Call.isUpdateRenderState, Call.isRequestAnimationFrame]
  · exact deliverAll_keeps_bound events _ (fun h hh => by simp at hh)

/-- A click or a granting answer keeps the bookkeeping of `Page.Counted`, a
click adding one to the sessions requested. -/
theorem deliver_keeps_counted (event : AsyncEvent) (p : Page) (clicks : Nat)
    (h : p.Counted clicks) (hg : event.GrantedActivation) :
    (deliver event p).Counted (clicks + if event.isClick then 1 else 0) := by
  obtain ⟨hl, hx, hrs, hurs, hraf⟩ := h
  cases event with
  | frame session time frame => exact absurd hg (by simp [AsyncEvent.GrantedActivation])
  | sessionEnd session => exact absurd hg (by simp [AsyncEvent.GrantedActivation])
  | click =>
    simp only [deliver, hl, List.foldl, List.length_singleton, activateXR_request_run,
      AsyncEvent.isClick, if_true]
    refine ⟨hl, hx, ?_, ?_, ?_⟩
    · simp [List.countP_append, Call.isRequestSession, hrs]
    · simp [List.countP_append, Call.isUpdateRenderState]
      omega
    · simpa [List.countP_append, Call.isUpdateRenderState, Call.isRequestAnimationFrame]
        using hraf
  | sessionSettled env =>
    obtain ⟨h1, h2, h3, -⟩ := hg
    by_cases h0 : p.awaitingSession = 0
    · simpa [deliver, h0, AsyncEvent.isClick] using ⟨hl, hx, hrs, hurs, hraf⟩
    · obtain ⟨hres, htrace, hheld, -, hlist⟩ := sessionSettled_bound_run env p.world h1 h2 h3
      simp only [deliver, h0, if_false, hres, suspendedOn, AsyncEvent.isClick, Nat.add_zero]
      refine ⟨by rw [hlist]; exact hl, fun _ => by rw [hheld]; rfl, ?_, ?_, ?_⟩
      · rw [htrace]
        simp [List.countP_append, Call.isRequestSession, hrs]
      · rw [htrace]
        simp [List.countP_append, Call.isUpdateRenderState]
        omega
      · rw [htrace]
        simp [List.countP_append, Call.isUpdateRenderState, Call.isRequestAnimationFrame]
        omega
  | spaceSettled run env =>
    obtain ⟨-, -, -, h4⟩ := hg
    cases hrun : p.awaitingSpace[run]? with
    | none => simpa [deliver, hrun, AsyncEvent.isClick] using ⟨hl, hx, hrs, hurs, hraf⟩
    | some requestedOn =>
      have hne : p.awaitingSpace ≠ [] := by
        intro hnil
        simp [hnil] at hrun
      have hlt : run < p.awaitingSpace.length := by
        rcases List.getElem?_eq_some.mp hrun with ⟨hlt, -⟩
        exact hlt
      have hsome := hx hne
      cases hheld : p.world.app.xrSession with
      | none => simp [hheld] at hsome
      | some held =>
        simp only [deliver, hrun, spaceSettled_granted_run env requestedOn p.world held h4 hheld,
          AsyncEvent.isClick, Nat.add_zero]
        refine ⟨hl, fun _ => by simp [hheld], ?_, ?_, ?_⟩
        · simp [List.countP_append, Call.isRequestSession, hrs]
        · simp [List.countP_append, Call.isUpdateRenderState]
          omega
        · simp [List.countP_append, Call.isUpdateRenderState, Call.isRequestAnimationFrame,
            List.length_eraseIdx, hlt]
          omega

/-- Any sequence of clicks and granting answers keeps the bookkeeping of
`Page.Counted`, with the clicks of the sequence added. -/
theorem deliverAll_keeps_counted (events : List AsyncEvent) (p : Page) (clicks : Nat)
    (h : p.Counted clicks) (hg : ∀ e ∈ events, e.GrantedActivation) :
    (deliverAll events p).Counted (clicks + events.countP AsyncEvent.isClick) := by
  unfold deliverAll
  induction events generalizing p clicks with
  | nil => simpa using h
  | cons event rest ih =>
    have hstep := deliver_keeps_counted event p clicks h (hg event (List.mem_cons_self _ _))
    have hrest := ih (deliver event p) _ hstep (fun e he => hg e (List.mem_cons_of_mem _ he))
    simp only [List.foldl_cons]
    rw [List.countP_cons]
    have heq : clicks + (List.countP AsyncEvent.isClick rest + if event.isClick = true then 1 else 0)
        = clicks + (if event.isClick = true then 1 else 0)
          + List.countP AsyncEvent.isClick rest := by omega
    rw [heq]
    exact hrest

/-- The loaded page has the bookkeeping of `Page.Counted` with no session
requested. -/
theorem loadedPage_counted : loadedPage.Counted 0 :=
  ⟨rfl, fun h => absurd rfl h, rfl, rfl, rfl⟩

/-- C8 as amended. `activateXR` has no guard against a second activation.
In whatever world, so also while an earlier activation waits for its session,
waits for its reference space or is active: a click requests one session;
a granted session is stored in `this.xrSession` in place of the one held and
gets one `updateRenderState` call; a granted reference space makes the run
register one frame callback, on the session `this.xrSession` holds at that
moment. And after any sequence of clicks and granting answers, in any order,
from the loaded page: as many sessions were requested as there were clicks,
each request is still unanswered or led to one `updateRenderState` call, and
each of those runs still waits for its reference space or registered one
frame callback. The `App` refers to one session at a time, the one stored
last. -/
theorem activation_has_no_guard (env : Env) (w : World) (requestedOn : Nat)
    (events : List AsyncEvent) (hg : env.Granted)
    (hev : ∀ e ∈ events, e.GrantedActivation) :
    callsSince w (activateXR_request.run w).2
        = [Call.enter "activateXR", Call.requestSession "immersive-ar"]
      ∧ ((activateXR_sessionSettled env).run w).1 = Except.ok (some w.nextHandle)
      ∧ (callsSince w ((activateXR_sessionSettled env).run w).2).countP
          Call.isUpdateRenderState = 1
      ∧ (((activateXR_sessionSettled env).run w).2.app.xrSession.map
          fun session => session.handle) = some w.nextHandle
      ∧ (∀ held, w.app.xrSession = some held →
          callsSince w ((activateXR_spaceSettled env requestedOn).run w).2
              = [Call.requestAnimationFrame held.handle "onXRFrame"]
            ∧ ((activateXR_spaceSettled env requestedOn).run w).2.scheduled
                = w.scheduled ++ [held.handle]
            ∧ ((activateXR_spaceSettled env requestedOn).run w).2.app.xrSession = some held)
      ∧ (deliverAll events loadedPage).world.trace.countP Call.isRequestSession
          = events.countP AsyncEvent.isClick
      ∧ (deliverAll events loadedPage).world.trace.countP Call.isUpdateRenderState
            + (deliverAll events loadedPage).awaitingSession
          = events.countP AsyncEvent.isClick
      ∧ (deliverAll events loadedPage).world.trace.countP Call.isRequestAnimationFrame
            + (deliverAll events loadedPage).awaitingSpace.length
          = (deliverAll events loadedPage).world.trace.countP Call.isUpdateRenderState := by
  obtain ⟨h1, h2, h3, h4⟩ := hg
  obtain ⟨hres, htrace, hheld, -⟩ := sessionSettled_bound_run env w h1 h2 h3
  obtain ⟨-, -, hrs, hurs, hraf⟩ :=
    deliverAll_keeps_counted events loadedPage 0 loadedPage_counted hev
  refine ⟨?_, hres, ?_, ?_, ?_, ?_, ?_, hraf⟩
  · simp [activateXR_request_run]
  · simp [callsSince, htrace, Call.isUpdateRenderState]
  · rw [hheld]
    rfl
  · intro held hx
    simp [spaceSettled_granted_run env requestedOn w held h4 hx, hx]
  · simpa using hrs
  · simpa using hurs

/-- The witness of C8 as amended: two clicks in a row, then the answers to
both session requests, then to both reference space requests, all granted.
Two sessions are requested, two surfaces bound, two frame callbacks
registered, both on the session stored last, and nothing is left suspended. -/
theorem activation_has_no_guard_witness :
    grantingEnv.Granted
      ∧ (∀ e ∈ twoActivations, e.GrantedActivation)
      ∧ (deliverAll twoActivations loadedPage).awaitingSession = 0
      ∧ (deliverAll twoActivations loadedPage).awaitingSpace = []
      ∧ (deliverAll twoActivations loadedPage).world.scheduled = [3, 3]
      ∧ twoActivations.countP AsyncEvent.isClick = 2
      ∧ (deliverAll twoActivations loadedPage).world.trace.countP Call.isRequestSession
          = twoActivations.countP AsyncEvent.isClick
      ∧ (deliverAll twoActivations loadedPage).world.trace.countP Call.isUpdateRenderState
            + (deliverAll twoActivations loadedPage).awaitingSession
          = twoActivations.countP AsyncEvent.isClick
      ∧ (deliverAll twoActivations loadedPage).world.trace.countP Call.isRequestAnimationFrame
            + (deliverAll twoActivations loadedPage).awaitingSpace.length
          = (deliverAll twoActivations loadedPage).world.trace.countP
              Call.isUpdateRenderState := by
  have hev : ∀ e ∈ twoActivations, e.GrantedActivation := by
    intro e he
    simp only [twoActivations, List.mem_cons, List.mem_singleton, List.not_mem_nil,
      or_false] at he
    rcases he with rfl | rfl | rfl | rfl | rfl | rfl
    · trivial
    · trivial
    · exact ⟨rfl, rfl, rfl, rfl⟩
    · exact ⟨rfl, rfl, rfl, rfl⟩
    · exact ⟨rfl, rfl, rfl, rfl⟩
    · exact ⟨rfl, rfl, rfl, rfl⟩
  exact ⟨⟨rfl, rfl, rfl, rfl⟩, hev, rfl, rfl, rfl, rfl,
    (activation_has_no_guard grantingEnv activeWorld 0 twoActivations
      ⟨rfl, rfl, rfl, rfl⟩ hev).2.2.2.2.2⟩

/-- Every event keeps `FramesHaveSession`, also with the `await`s of
`activateXR` as suspension points. -/
theorem deliver_keeps_session (event : AsyncEvent) (p : Page) (h : FramesHaveSession p.world) :
    FramesHaveSession (deliver event p).world := by
  cases event with
  | click =>
    simp only [deliver]
    exact foldl_keeps (fun w1 => (activateXR_request.run w1).2) FramesHaveSession
      (fun w1 h1 => by simpa [activateXR_request_run, FramesHaveSession] using h1) _ p.world h
  | frame session time frame =>
    simp only [deliver]
    exact dispatch_keeps_session (PlatformEvent.frame session time frame) p.world h
  | sessionEnd session =>
    simp only [deliver]
    exact dispatch_keeps_session (PlatformEvent.sessionEnd session) p.world h
  | sessionSettled env =>
    simp only [deliver]
    split
    · exact h
    · cases h1 : env.sessionRejection "immersive-ar" with
      | some e =>
        simpa [sessionSettled_denied_run env p.world e h1, FramesHaveSession] using h
      | none =>
        left
        cases h2 : env.contextCreated with
        | false => simp [(sessionSettled_no_context_run env p.world h1 h2).2.2.1]
        | true =>
          cases h3 : env.renderStateRejection with
          | some e => simp [(sessionSettled_unbound_run env p.world e h1 h2 h3).2.2.1]
          | none => simp [(sessionSettled_bound_run env p.world h1 h2 h3).2.2.1]
  | spaceSettled run env =>
    simp only [deliver]
    split
    · exact h
    · rename_i requestedOn _
      cases h4 : env.referenceSpaceRejection "local" with
      | some e =>
        simpa [spaceSettled_denied_run env requestedOn p.world e h4, FramesHaveSession] using h
      | none =>
        cases hx : p.world.app.xrSession with
        | some held =>
          left
          simp [spaceSettled_granted_run env requestedOn p.world held h4 hx, hx]
        | none =>
          right
          rw [(spaceSettled_no_session_run env requestedOn p.world h4 hx).2]
          rcases h with h | h
          · simp [hx] at h
          · exact h

/-- Any sequence of events keeps `FramesHaveSession`. -/
theorem deliverAll_keeps_session (events : List AsyncEvent) (p : Page)
    (h : FramesHaveSession p.world) : FramesHaveSession (deliverAll events p).world := by
  unfold deliverAll
  induction events generalizing p with
  | nil => exact h
  | cons event rest ih => exact ih (deliver event p) (deliver_keeps_session event p h)

/-- In every page the program can reach, with the `await`s of `activateXR` as
suspension points and whatever is delivered in between: whenever a frame
callback is pending, `this.xrSession` holds a session. -/
theorem deliverAll_frames_have_session (nav : Navigator) (doc : Document) (awaiting : Nat)
    (events : List AsyncEvent) :
    FramesHaveSession
      (deliverAll events
        { world := afterStartup nav doc World.empty, awaitingSession := awaiting,
          awaitingSpace := [] }).world := by
  refine deliverAll_keeps_session events _ ?_
  right
  show (afterStartup nav doc World.empty).scheduled = []
  rw [(startup_keeps_app nav doc World.empty).2]
  rfl

end Arcore
